import Mathlib

/-!
Verification development for the per-frame scene renderer
(`src/rwengine/src/render/GameRenderer.cpp`).

The C++ code is shallowly embedded: each render routine becomes a Lean
function over an explicit `RenderState`, with GL side effects recorded as an
ordered event list.  Float vectors/matrices are embedded over `ℚ`; glm matrix
operations (`operator*`, `translate`, `scale`, `inverse`, column access
`m[3]`) are given their standard mathematical definitions.  Euclidean
distances (`glm::length`, `glm::distance`) involve square roots, so a
computed distance value is passed into the embedded decision functions as an
input, and where a statement needs to tie a distance to concrete positions it
does so through the relational predicate `IsDist` (`d ≥ 0 ∧ d² = ‖p−q‖²`).
-/

/-- 3-component float vector (`glm::vec3`), embedded over `ℚ`. -/
structure Vec3 where
  x : ℚ
  y : ℚ
  z : ℚ
deriving DecidableEq

instance : Add Vec3 := ⟨fun a b => ⟨a.x + b.x, a.y + b.y, a.z + b.z⟩⟩

instance : Sub Vec3 := ⟨fun a b => ⟨a.x - b.x, a.y - b.y, a.z - b.z⟩⟩

/-- 2-component float vector (`glm::vec2`), embedded over `ℚ`;
used by the water pass (`glm::vec2(camera.worldPos)`, tile centres). -/
structure Vec2 where
  x : ℚ
  y : ℚ
deriving DecidableEq

/-- Squared Euclidean distance between two `Vec2`. -/
def dist2 (p q : Vec2) : ℚ :=
  (p.x - q.x) ^ 2 + (p.y - q.y) ^ 2

/-- `IsDist p q d` holds iff `d` is the (nonnegative) Euclidean distance
`glm::distance(p, q)`.  Stated relationally because the square root of a
rational is in general irrational. -/
def IsDist (p q : Vec2) (d : ℚ) : Prop :=
  0 ≤ d ∧ d ^ 2 = dist2 p q

/-- 4×4 float matrix (`glm::mat4`), embedded over `ℚ`.  Entry `aij` is the
entry in row `i`, column `j` of the usual mathematical notation; glm's
column-major `m[3]` is therefore the column `(a03, a13, a23, a33)`. -/
structure Mat4 where
  a00 : ℚ
  a01 : ℚ
  a02 : ℚ
  a03 : ℚ
  a10 : ℚ
  a11 : ℚ
  a12 : ℚ
  a13 : ℚ
  a20 : ℚ
  a21 : ℚ
  a22 : ℚ
  a23 : ℚ
  a30 : ℚ
  a31 : ℚ
  a32 : ℚ
  a33 : ℚ
deriving DecidableEq

/-- Matrix product (glm `operator*`). -/
def Mat4.mul (m n : Mat4) : Mat4 where
  a00 := m.a00 * n.a00 + m.a01 * n.a10 + m.a02 * n.a20 + m.a03 * n.a30
  a01 := m.a00 * n.a01 + m.a01 * n.a11 + m.a02 * n.a21 + m.a03 * n.a31
  a02 := m.a00 * n.a02 + m.a01 * n.a12 + m.a02 * n.a22 + m.a03 * n.a32
  a03 := m.a00 * n.a03 + m.a01 * n.a13 + m.a02 * n.a23 + m.a03 * n.a33
  a10 := m.a10 * n.a00 + m.a11 * n.a10 + m.a12 * n.a20 + m.a13 * n.a30
  a11 := m.a10 * n.a01 + m.a11 * n.a11 + m.a12 * n.a21 + m.a13 * n.a31
  a12 := m.a10 * n.a02 + m.a11 * n.a12 + m.a12 * n.a22 + m.a13 * n.a32
  a13 := m.a10 * n.a03 + m.a11 * n.a13 + m.a12 * n.a23 + m.a13 * n.a33
  a20 := m.a20 * n.a00 + m.a21 * n.a10 + m.a22 * n.a20 + m.a23 * n.a30
  a21 := m.a20 * n.a01 + m.a21 * n.a11 + m.a22 * n.a21 + m.a23 * n.a31
  a22 := m.a20 * n.a02 + m.a21 * n.a12 + m.a22 * n.a22 + m.a23 * n.a32
  a23 := m.a20 * n.a03 + m.a21 * n.a13 + m.a22 * n.a23 + m.a23 * n.a33
  a30 := m.a30 * n.a00 + m.a31 * n.a10 + m.a32 * n.a20 + m.a33 * n.a30
  a31 := m.a30 * n.a01 + m.a31 * n.a11 + m.a32 * n.a21 + m.a33 * n.a31
  a32 := m.a30 * n.a02 + m.a31 * n.a12 + m.a32 * n.a22 + m.a33 * n.a32
  a33 := m.a30 * n.a03 + m.a31 * n.a13 + m.a32 * n.a23 + m.a33 * n.a33

instance : Mul Mat4 := ⟨Mat4.mul⟩

/-- The identity matrix (`glm::mat4()` default-constructs the identity). -/
def Mat4.identity : Mat4 where
  a00 := 1
  a01 := 0
  a02 := 0
  a03 := 0
  a10 := 0
  a11 := 1
  a12 := 0
  a13 := 0
  a20 := 0
  a21 := 0
  a22 := 1
  a23 := 0
  a30 := 0
  a31 := 0
  a32 := 0
  a33 := 1

/-- `glm::vec3(matrix[3])`: the translation column of a transform. -/
def Mat4.translationCol (m : Mat4) : Vec3 :=
  ⟨m.a03, m.a13, m.a23⟩

/-- `glm::translate(glm::mat4(), v)`: a pure translation matrix.  The source
always applies `glm::translate` to a fresh identity matrix before composing
rotations and scales onto it. -/
def translationMatrix (v : Vec3) : Mat4 :=
  { Mat4.identity with a03 := v.x, a13 := v.y, a23 := v.z }

/-- The diagonal scale matrix; `glm::scale(m, v) = m * scaleMatrix v`. -/
def scaleMatrix (v : Vec3) : Mat4 :=
  { Mat4.identity with a00 := v.x, a11 := v.y, a22 := v.z }

/-- Determinant of a 3×3 block, used for the 4×4 minors below. -/
def det3 (a b c d e f g h i : ℚ) : ℚ :=
  a * (e * i - f * h) - b * (d * i - f * g) + c * (d * h - e * g)

/-- Determinant of a 4×4 matrix, by expansion along the first row. -/
def Mat4.det (m : Mat4) : ℚ :=
  m.a00 * det3 m.a11 m.a12 m.a13 m.a21 m.a22 m.a23 m.a31 m.a32 m.a33
  - m.a01 * det3 m.a10 m.a12 m.a13 m.a20 m.a22 m.a23 m.a30 m.a32 m.a33
  + m.a02 * det3 m.a10 m.a11 m.a13 m.a20 m.a21 m.a23 m.a30 m.a31 m.a33
  - m.a03 * det3 m.a10 m.a11 m.a12 m.a20 m.a21 m.a22 m.a30 m.a31 m.a32

/-- `glm::inverse`: the cofactor (adjugate) inverse.  Entry `(i, j)` of the
result is `(-1)^(i+j) * minor(j, i) / det`. -/
def Mat4.inverse (m : Mat4) : Mat4 :=
  let d := m.det
  { a00 := det3 m.a11 m.a12 m.a13 m.a21 m.a22 m.a23 m.a31 m.a32 m.a33 / d
    a01 := -(det3 m.a01 m.a02 m.a03 m.a21 m.a22 m.a23 m.a31 m.a32 m.a33) / d
    a02 := det3 m.a01 m.a02 m.a03 m.a11 m.a12 m.a13 m.a31 m.a32 m.a33 / d
    a03 := -(det3 m.a01 m.a02 m.a03 m.a11 m.a12 m.a13 m.a21 m.a22 m.a23) / d
    a10 := -(det3 m.a10 m.a12 m.a13 m.a20 m.a22 m.a23 m.a30 m.a32 m.a33) / d
    a11 := det3 m.a00 m.a02 m.a03 m.a20 m.a22 m.a23 m.a30 m.a32 m.a33 / d
    a12 := -(det3 m.a00 m.a02 m.a03 m.a10 m.a12 m.a13 m.a30 m.a32 m.a33) / d
    a13 := det3 m.a00 m.a02 m.a03 m.a10 m.a12 m.a13 m.a20 m.a22 m.a23 / d
    a20 := det3 m.a10 m.a11 m.a13 m.a20 m.a21 m.a23 m.a30 m.a31 m.a33 / d
    a21 := -(det3 m.a00 m.a01 m.a03 m.a20 m.a21 m.a23 m.a30 m.a31 m.a33) / d
    a22 := det3 m.a00 m.a01 m.a03 m.a10 m.a11 m.a13 m.a30 m.a31 m.a33 / d
    a23 := -(det3 m.a00 m.a01 m.a03 m.a10 m.a11 m.a13 m.a20 m.a21 m.a23) / d
    a30 := -(det3 m.a10 m.a11 m.a12 m.a20 m.a21 m.a22 m.a30 m.a31 m.a32) / d
    a31 := det3 m.a00 m.a01 m.a02 m.a20 m.a21 m.a22 m.a30 m.a31 m.a32 / d
    a32 := -(det3 m.a00 m.a01 m.a02 m.a10 m.a11 m.a12 m.a30 m.a31 m.a32) / d
    a33 := det3 m.a00 m.a01 m.a02 m.a10 m.a11 m.a12 m.a20 m.a21 m.a22 / d }

/-- One frustum half-space plane, `normal·p + distance` being the signed
distance of point `p` from the plane. -/
structure Plane where
  normal : Vec3
  distance : ℚ
deriving DecidableEq

/-- Signed distance of a point from a plane. -/
def planeSignedDistance (p : Plane) (c : Vec3) : ℚ :=
  p.normal.x * c.x + p.normal.y * c.y + p.normal.z * c.z + p.distance

/-- The camera frustum: the six half-space planes derived once per frame from
the projection×view product. -/
structure Frustum where
  planes : List Plane
deriving DecidableEq

/-- Modelled from the spec: `ViewFrustum::intersects` is declared outside
`src/` (only its call sites are in the repository).  Per the spec contract,
`intersects(sphereCenterWorld, radius)` is true iff the sphere is not
entirely outside any of the six half-spaces, where the sphere is outside a
plane iff its signed distance to that plane is `< -radius`. -/
def Frustum.intersects (fr : Frustum) (center : Vec3) (radius : ℚ) : Bool :=
  fr.planes.all (fun p => !(decide (planeSignedDistance p center < -radius)))

/-- RGB colour triple.  Material colours are stored in byte range (0–255);
vehicle colours are stored in unit range, matching the source uniforms. -/
structure Colour where
  r : ℚ
  g : ℚ
  b : ℚ
deriving DecidableEq

/-- `Model::Material`: base tint colour, texture-name list, colour-source
flag bits (`MTF_PrimaryColour` / `MTF_SecondaryColour`) and the two intensity
scalars. -/
structure Material where
  colour : Colour
  textures : List String
  flagPrimaryColour : Bool
  flagSecondaryColour : Bool
  diffuseIntensity : ℚ
  ambientIntensity : ℚ
deriving DecidableEq

/-- A subgeometry: an index range into the chunk's index buffer plus the
index of its material. -/
structure SubGeometry where
  material : ℕ
  start : ℕ
  numIndices : ℕ
deriving DecidableEq

/-- A geometry chunk: bounding sphere, subgeometries, materials, the
`RW::BSGeometry::ModuleMaterialColor` flag bit, and the GL resource names of
its draw buffer (`dbuff.getVAOName()`, `EBO`, `dbuff.getFaceType()`). -/
structure Geometry where
  boundsCenter : Vec3
  boundsRadius : ℚ
  subgeom : List SubGeometry
  materials : List Material
  moduleMaterialColor : Bool
  dbuffVAOName : ℕ
  ebo : ℕ
  faceType : ℕ
deriving DecidableEq

/-- `ModelFrame`: a node of the model's rigid hierarchy — name, static
local transform, owned geometry-chunk indices, child frames. -/
inductive ModelFrame where
  | mk (name : String) (transform : Mat4) (geometries : List ℕ)
       (children : List ModelFrame)

/-- Frame name (`ModelFrame::getName`). -/
def ModelFrame.name : ModelFrame → String
  | .mk n _ _ _ => n

/-- Frame static transform (`ModelFrame::getTransform`). -/
def ModelFrame.transform : ModelFrame → Mat4
  | .mk _ t _ _ => t

/-- Indices of geometry chunks owned by the frame
(`ModelFrame::getGeometries`). -/
def ModelFrame.geometries : ModelFrame → List ℕ
  | .mk _ _ gs _ => gs

/-- Child frames (`ModelFrame::getChildren`). -/
def ModelFrame.children : ModelFrame → List ModelFrame
  | .mk _ _ _ cs => cs

/-- A `Model`: the flat frame collection (`frames`, indexed by
`rootFrameIdx`, each entry carrying its subtree) and the flat geometry-chunk
collection. -/
structure Model where
  frames : List ModelFrame
  rootFrameIdx : ℕ
  geometries : List Geometry

/-- An entry of the engine's texture cache (`TextureInfo`): the GL texture
name and the transparency flag. -/
structure TextureInfo where
  texName : ℕ
  transparent : Bool
deriving DecidableEq

/-- The texture cache `engine->gameData.textures` as an association list;
`findTexture` mirrors `std::map::find`. -/
def TexMap := List (String × TextureInfo)

/-- `engine->gameData.textures.find(name)`. -/
def findTexture (tex : TexMap) (nm : String) : Option TextureInfo :=
  (List.find? (fun pr => pr.1 == nm) tex).map (fun pr => pr.2)

/-- `GameObject::Type` discriminant. -/
inductive GameObjectType where
  | Character
  | Instance
  | Vehicle
deriving DecidableEq

/-- The animator collaborator: `getFrameMatrix(frame, alpha, fixed)`
(keyed here by frame name). -/
structure Animator where
  getFrameMatrix : String → ℚ → Bool → Mat4

/-- The per-object data `renderFrame`/`renderSubgeometry` consult: runtime
type, vehicle colours, optional animator, the `isAnimationFixed()` flag and
the frame-visibility data.  Modelled from the spec for `isFrameVisible`: the
member is declared outside `src/`; per the spec a frame is visible unless the
object reports it explicitly hidden, so the hidden set is carried as a list
of frame names. -/
structure GameObject where
  type : GameObjectType
  colourPrimary : Colour
  colourSecondary : Colour
  animator : Option Animator
  animationFixed : Bool
  hiddenFrames : List String

/-- `GameObject::isFrameVisible(f)` (see `GameObject.hiddenFrames`). -/
def GameObject.isFrameVisible (o : GameObject) (f : ModelFrame) : Bool :=
  !(o.hiddenFrames.contains f.name)

/-- A queued draw (`transparentDrawQueue` element): model, geometry index,
subgeometry index, world matrix, owning object. -/
structure DrawCall where
  model : Model
  g : ℕ
  sg : ℕ
  matrix : Mat4
  object : Option GameObject

/-- An observable GL side effect of the embedded render routines.  Draw
submissions are tagged with the geometry/subgeometry they draw (determined in
the source by the VAO/EBO bound immediately before the `glDrawElements`). -/
inductive GLEvent where
  | bindVertexArray (vao : ℕ)
  | bindElementBuffer (ebo : ℕ)
  | bindTexture (texName : ℕ)
  | uniformModel (m : Mat4)
  | uniformCol (r g b a : ℚ)
  | uniformMatDiffuse (v : ℚ)
  | uniformMatAmbient (v : ℚ)
  | drawElements (faceType g sg numIndices start : ℕ)
  | logMessage (msg : String)
deriving DecidableEq

/-- The renderer's mutable per-frame state: the `rendered` and `culled`
counters, the transparency deferral queue, and the ordered record of GL
side effects. -/
structure RenderState where
  rendered : ℕ
  culled : ℕ
  transparentDrawQueue : List DrawCall
  events : List GLEvent

/-- The empty state at the start of `renderWorld` (`rendered = culled = 0`,
no queued draws, no events). -/
def RenderState.initial : RenderState :=
  ⟨0, 0, [], []⟩

/-- Record one GL side effect. -/
def RenderState.emit (st : RenderState) (e : GLEvent) : RenderState :=
  { st with events := st.events ++ [e] }

/-- `transparentDrawQueue.push_back`. -/
def RenderState.pushDraw (st : RenderState) (dc : DrawCall) : RenderState :=
  { st with transparentDrawQueue := st.transparentDrawQueue ++ [dc] }

/-- `culled++`. -/
def RenderState.cullInc (st : RenderState) : RenderState :=
  { st with culled := st.culled + 1 }

/-- The material-colour selection block of `GameRenderer::renderSubgeometry`
(lines 618–635): when the chunk's `ModuleMaterialColor` flag is set, choose
the vehicle primary/secondary colour (by material flag) for vehicle objects,
else the material's stored byte-range colour scaled by 1/255. -/
def materialColourState (geom : Geometry) (mat : Material)
    (object : Option GameObject) (st : RenderState) : RenderState :=
  if geom.moduleMaterialColor then
    match object with
    | some o =>
      if o.type = GameObjectType.Vehicle then
        if mat.flagPrimaryColour then
          st.emit (.uniformCol o.colourPrimary.r o.colourPrimary.g
            o.colourPrimary.b 1)
        else if mat.flagSecondaryColour then
          st.emit (.uniformCol o.colourSecondary.r o.colourSecondary.g
            o.colourSecondary.b 1)
        else
          st.emit (.uniformCol (mat.colour.r / 255) (mat.colour.g / 255)
            (mat.colour.b / 255) 1)
      else
        st.emit (.uniformCol (mat.colour.r / 255) (mat.colour.g / 255)
          (mat.colour.b / 255) 1)
    | none =>
      st.emit (.uniformCol (mat.colour.r / 255) (mat.colour.g / 255)
        (mat.colour.b / 255) 1)
  else st

/-- The intensity uploads of `renderSubgeometry` (lines 637–638). -/
def materialIntensityState (mat : Material) (st : RenderState) : RenderState :=
  (st.emit (.uniformMatDiffuse mat.diffuseIntensity)).emit
    (.uniformMatAmbient mat.ambientIntensity)

/-- The unconditional tail of `renderSubgeometry` (lines 641–644):
`rendered++` followed by the `glDrawElements` submission. -/
def finishSubgeometryDraw (geom : Geometry) (g sg : ℕ) (subgeom : SubGeometry)
    (st : RenderState) : RenderState :=
  { st with
    rendered := st.rendered + 1,
    events := st.events ++
      [GLEvent.drawElements geom.faceType g sg subgeom.numIndices
        subgeom.start] }

/-- `GameRenderer::renderSubgeometry` (lines 596–647).  Returns `false` to
signal "defer to the transparency queue" (a transparent texture met during
the opaque pass), `true` when the subgeometry was drawn.  `none` models the
undefined behaviour of an out-of-range geometry or subgeometry index. -/
def renderSubgeometry (tex : TexMap) (model : Model) (g sg : ℕ)
    (matrix : Mat4) (object : Option GameObject) (queueTransparent : Bool)
    (st : RenderState) : Option (Bool × RenderState) :=
  match model.geometries.get? g with
  | none => none
  | some geom =>
    match geom.subgeom.get? sg with
    | none => none
    | some subgeom =>
      let st := (st.emit (.bindVertexArray geom.dbuffVAOName)).emit
        (.bindElementBuffer geom.ebo)
      match geom.materials.get? subgeom.material with
      | some mat =>
        match mat.textures.head? with
        | some texName =>
          match findTexture tex texName with
          | some ti =>
            if ti.transparent && queueTransparent then
              some (false, st)
            else
              some (true, finishSubgeometryDraw geom g sg subgeom
                (materialIntensityState mat
                  (materialColourState geom mat object
                    (st.emit (.bindTexture ti.texName)))))
          | none =>
            some (true, finishSubgeometryDraw geom g sg subgeom
              (materialIntensityState mat
                (materialColourState geom mat object st)))
        | none =>
          some (true, finishSubgeometryDraw geom g sg subgeom
            (materialIntensityState mat
              (materialColourState geom mat object st)))
      | none =>
        some (true, finishSubgeometryDraw geom g sg subgeom st)

/-- The subgeometry loop of `GameRenderer::renderGeometry` (lines 550–558):
draw each subgeometry; a rejected draw (`renderSubgeometry = false`) is
pushed onto `transparentDrawQueue` instead.  The loop always passes the
default `queueTransparent = true` (the call site omits the argument). -/
def renderGeometryLoop (tex : TexMap) (model : Model) (g : ℕ)
    (modelMatrix : Mat4) (object : Option GameObject) :
    List ℕ → RenderState → Option RenderState
  | [], st => some st
  | sg :: rest, st =>
    match renderSubgeometry tex model g sg modelMatrix object true st with
    | none => none
    | some (true, st2) =>
      renderGeometryLoop tex model g modelMatrix object rest st2
    | some (false, st2) =>
      renderGeometryLoop tex model g modelMatrix object rest
        (st2.pushDraw
          { model := model, g := g, sg := sg, matrix := modelMatrix,
            object := object })

/-- `GameRenderer::renderGeometry` (lines 545–559): upload the model matrix
and a white base colour, then run the subgeometry loop. -/
def renderGeometry (tex : TexMap) (model : Model) (g : ℕ)
    (modelMatrix : Mat4) (object : Option GameObject) (st : RenderState) :
    Option RenderState :=
  let st := (st.emit (.uniformModel modelMatrix)).emit (.uniformCol 1 1 1 1)
  match model.geometries.get? g with
  | none => none
  | some geom =>
    renderGeometryLoop tex model g modelMatrix object
      (List.range geom.subgeom.length) st

/-- Lines 563–570 of `renderFrame`: the frame's accumulated transform —
animator pose override when the object has an animator, else the frame's
static transform, multiplied onto the incoming matrix. -/
def frameLocalMatrix (alpha : ℚ) (object : Option GameObject)
    (matrix : Mat4) (f : ModelFrame) : Mat4 :=
  match object with
  | some o =>
    match o.animator with
    | some a => matrix * a.getFrameMatrix f.name alpha o.animationFixed
    | none => matrix * f.transform
  | none => matrix * f.transform

/-- Line 572 of `renderFrame`:
`vis = object == nullptr || object->isFrameVisible(f)`. -/
def frameVis (object : Option GameObject) (f : ModelFrame) : Bool :=
  match object with
  | none => true
  | some o => o.isFrameVisible f

/-- One iteration of the geometry loop of `renderFrame` (lines 573–588):
skip when the frame is hidden; frustum-test the chunk bounds translated by
the *incoming* accumulated position (`matrix[3]`); when the chunk's
`ModuleMaterialColor` flag is unset, reset the base colour to white; then
submit the chunk via `renderGeometry` with the local matrix. -/
def renderFrameGeomStep (fr : Frustum) (tex : TexMap) (m : Model)
    (vis : Bool) (matrix localmatrix : Mat4) (object : Option GameObject)
    (g : ℕ) (st : RenderState) : Option RenderState :=
  if !vis then some st
  else
    match m.geometries.get? g with
    | none => none
    | some geom =>
      if !(fr.intersects (geom.boundsCenter + matrix.translationCol)
            geom.boundsRadius) then
        some st
      else
        let st := if !geom.moduleMaterialColor then
            st.emit (.uniformCol 1 1 1 1)
          else st
        renderGeometry tex m g localmatrix object st

/-- The geometry loop of `renderFrame` over `f->getGeometries()`. -/
def renderFrameGeomList (fr : Frustum) (tex : TexMap) (m : Model)
    (vis : Bool) (matrix localmatrix : Mat4) (object : Option GameObject) :
    List ℕ → RenderState → Option RenderState
  | [], st => some st
  | g :: rest, st =>
    match renderFrameGeomStep fr tex m vis matrix localmatrix object g st with
    | none => none
    | some st2 =>
      renderFrameGeomList fr tex m vis matrix localmatrix object rest st2

mutual

/-- `GameRenderer::renderFrame` (lines 561–594): accumulate the local
transform, run the geometry loop, then recurse into every child frame
(unconditionally), returning `true`. -/
def renderFrame (fr : Frustum) (tex : TexMap) (alpha : ℚ) (m : Model) :
    ModelFrame → Mat4 → Option GameObject → Bool → RenderState →
    Option (Bool × RenderState)
  | .mk nm t gs cs, matrix, object, queueTransparent, st =>
    let localmatrix :=
      frameLocalMatrix alpha object matrix (ModelFrame.mk nm t gs cs)
    let vis := frameVis object (ModelFrame.mk nm t gs cs)
    match renderFrameGeomList fr tex m vis matrix localmatrix object gs
        st with
    | none => none
    | some st1 =>
      match renderFrameChildren fr tex alpha m cs localmatrix object
          queueTransparent st1 with
      | none => none
      | some st2 => some (true, st2)

/-- The child loop of `renderFrame` (lines 590–592); the per-child boolean
result is discarded, as in the source. -/
def renderFrameChildren (fr : Frustum) (tex : TexMap) (alpha : ℚ)
    (m : Model) : List ModelFrame → Mat4 → Option GameObject → Bool →
    RenderState → Option RenderState
  | [], _, _, _, st => some st
  | c :: rest, matrix, object, queueTransparent, st =>
    match renderFrame fr tex alpha m c matrix object queueTransparent st with
    | none => none
    | some (_, st2) =>
      renderFrameChildren fr tex alpha m rest matrix object queueTransparent
        st2

end

/-- `GameRenderer::renderModel` (lines 649–652): traverse from the root
frame (the `animator` parameter of the source function is unused there). -/
def renderModel (fr : Frustum) (tex : TexMap) (alpha : ℚ) (model : Model)
    (modelMatrix : Mat4) (object : Option GameObject) (st : RenderState) :
    Option RenderState :=
  match model.frames.get? model.rootFrameIdx with
  | none => none
  | some f =>
    (renderFrame fr tex alpha model f modelMatrix object true st).map
      (fun r => r.2)

mutual

/-- All geometry-chunk visits performed by `renderFrame` on a subtree,
paired with the *incoming* accumulated matrix of the visiting frame — the
matrix whose translation column the frustum test uses (line 577). -/
def frameVisits (alpha : ℚ) (object : Option GameObject) :
    ModelFrame → Mat4 → List (ℕ × Mat4)
  | .mk nm t gs cs, matrix =>
    gs.map (fun g => (g, matrix)) ++
      frameVisitsList alpha object cs
        (frameLocalMatrix alpha object matrix (ModelFrame.mk nm t gs cs))

/-- `frameVisits` over a child list. -/
def frameVisitsList (alpha : ℚ) (object : Option GameObject) :
    List ModelFrame → Mat4 → List (ℕ × Mat4)
  | [], _ => []
  | c :: rest, matrix =>
    frameVisits alpha object c matrix ++
      frameVisitsList alpha object rest matrix

end

/-- `ObjectData` fields consulted by `renderWorld`: time-of-day window,
clump count, the two draw distances, and the "is itself a LOD model" flag. -/
structure ObjectData where
  timeOn : ℤ
  timeOff : ℤ
  numClumps : ℕ
  drawDistance0 : ℚ
  drawDistance1 : ℚ
  LOD : Bool

/-- The linked lower-detail instance (`inst.LODinstance`): its own
`object->drawDistance[0]` threshold and its possibly-unloaded model. -/
structure LODInstanceLink where
  objectDrawDistance0 : ℚ
  modelHandle : Option Model

/-- An `InstanceObject` as seen by the instance loop of `renderWorld`:
object data, the possibly-unloaded model (`inst.model->model`), an optional
physics body world transform, the static placement, and the LOD link. -/
structure InstanceObject where
  object : ObjectData
  modelHandle : Option Model
  body : Option Mat4
  position : Vec3
  scale : Vec3
  rotationMat : Mat4
  LODinstance : Option LODInstanceLink

/-- A `CharacterObject` as seen by the pedestrian loop: placement (rotation
kept as its `glm::mat4_cast` matrix), the possibly-unloaded model
(`charac->model->model`), and the `GameObject` data used by traversal. -/
structure CharacterObject where
  position : Vec3
  rotationMat : Mat4
  modelHandle : Option Model
  gameObject : GameObject

/-- A model handle (`inst->model` for vehicles): the handle itself can be
null, and a non-null handle's `->model` can still be unloaded. -/
structure ModelHandle where
  model : Option Model

/-- A `VehicleObject` as seen by the vehicle loop: placement, the model
handle (checked for null at line 388), the vehicle's model name (used in the
log message), and the `GameObject` data (type `Vehicle`, colours). -/
structure VehicleObjectData where
  position : Vec3
  rotationMat : Mat4
  model : Option ModelHandle
  modelName : String
  gameObject : GameObject

/-- Lines 316–322: the instance time-of-day check.  The instance is skipped
(`continue`) iff `timeOn != timeOff` and the current hour satisfies
`hour < timeOn && hour > timeOff`. -/
def instanceTimeSkipped (hour : ℤ) (od : ObjectData) : Bool :=
  if od.timeOn != od.timeOff then
    decide (hour < od.timeOn) && decide (hour > od.timeOff)
  else false

/-- Lines 329–337: the instance world matrix — the physics body transform
when a body exists, else translate × scale × rotation. -/
def instanceMatrixModel (inst : InstanceObject) : Mat4 :=
  match inst.body with
  | some b => b
  | none =>
    translationMatrix inst.position * scaleMatrix inst.scale *
      inst.rotationMat

/-- Lines 324–382 of the instance loop, after the time-of-day check: the
model-null skip, then the LOD dispatch.  `mindist` is the value computed at
lines 339–344 (the minimum over geometry chunks of the camera-to-bounds
distance minus the chunk radius, starting from 100000): it is a Euclidean
length, hence irrational in general, and is passed in as an input.  `none`
models the undefined behaviour of indexing `frames[0]` /
`getChildren()[size-2]` out of range (for fewer than two children the
`size_t` subtraction wraps around). -/
def renderWorldInstanceBody (fr : Frustum) (tex : TexMap) (alpha : ℚ)
    (inst : InstanceObject) (mindist : ℚ) (st : RenderState) :
    Option RenderState :=
  match inst.modelHandle with
  | none => some st
  | some model =>
    let matrixModel := instanceMatrixModel inst
    if inst.object.numClumps == 1 then
      if decide (mindist > inst.object.drawDistance0) then
        match inst.LODinstance with
        | some lod =>
          if decide (mindist > lod.objectDrawDistance0) then
            some st.cullInc
          else
            match lod.modelHandle with
            | some lodModel =>
              renderModel fr tex alpha lodModel matrixModel none st
            | none => some st
        | none => some st
      else
        if !inst.object.LOD then
          renderModel fr tex alpha model matrixModel none st
        else some st
    else
      if decide (mindist > inst.object.drawDistance1) then
        some st.cullInc
      else if decide (mindist > inst.object.drawDistance0) then
        match model.frames.get? 0 with
        | none => none
        | some rootFrame =>
          if rootFrame.children.length < 2 then none
          else
            match rootFrame.children.get? (rootFrame.children.length - 2) with
            | none => none
            | some f =>
              (renderFrame fr tex alpha model f
                  (matrixModel * f.transform.inverse) none true st).map
                (fun r => r.2)
      else
        match model.frames.get? 0 with
        | none => none
        | some rootFrame =>
          if rootFrame.children.length < 1 then none
          else
            match rootFrame.children.get? (rootFrame.children.length - 1) with
            | none => none
            | some f =>
              (renderFrame fr tex alpha model f
                  (matrixModel * f.transform.inverse) none true st).map
                (fun r => r.2)

/-- One iteration of the instance loop (lines 313–383): time-of-day check,
then `renderWorldInstanceBody`. -/
def renderWorldInstanceStep (fr : Frustum) (tex : TexMap) (alpha : ℚ)
    (hour : ℤ) (inst : InstanceObject) (mindist : ℚ) (st : RenderState) :
    Option RenderState :=
  if instanceTimeSkipped hour inst.object then some st
  else renderWorldInstanceBody fr tex alpha inst mindist st

/-- One iteration of the pedestrian loop (lines 300–311): build the world
matrix, silently skip when the model is not loaded (no log), else traverse
the model. -/
def renderWorldPedestrianStep (fr : Frustum) (tex : TexMap) (alpha : ℚ)
    (charac : CharacterObject) (st : RenderState) : Option RenderState :=
  let matrixModel := translationMatrix charac.position * charac.rotationMat
  match charac.modelHandle with
  | none => some st
  | some model =>
    renderModel fr tex alpha model matrixModel (some charac.gameObject) st

/-- Lines 388–391: the vehicle loop logs when the model handle is null —
but does not skip the vehicle. -/
def renderWorldVehicleLog (v : VehicleObjectData) (st : RenderState) :
    RenderState :=
  match v.model with
  | none => st.emit (.logMessage ("model " ++ v.modelName ++ " not loaded"))
  | some _ => st

/-- One iteration of the vehicle loop (lines 385–397, wheels omitted): the
null-handle log, the world matrix, then an unconditional
`renderModel(inst->model->model, ...)` — `none` models the null dereference
this performs when the handle (or its model) is missing. -/
def renderWorldVehicleStep (fr : Frustum) (tex : TexMap) (alpha : ℚ)
    (v : VehicleObjectData) (st : RenderState) : Option RenderState :=
  let st := renderWorldVehicleLog v st
  let matrixModel := translationMatrix v.position * v.rotationMat
  match v.model with
  | none => none
  | some h =>
    match h.model with
    | none => none
    | some model =>
      renderModel fr tex alpha model matrixModel (some v.gameObject) st

/-- One entry of the transparency flush (lines 427–430): re-upload the
entry's original world matrix, force the base colour to white, then draw via
`renderSubgeometry` with `queueTransparent = false`. -/
def flushEntry (tex : TexMap) (st : RenderState) (dc : DrawCall) :
    Option RenderState :=
  let st := (st.emit (.uniformModel dc.matrix)).emit (.uniformCol 1 1 1 1)
  (renderSubgeometry tex dc.model dc.g dc.sg dc.matrix dc.object false
      st).map (fun r => r.2)

/-- The flush iteration over the queued draws (lines 423–431). -/
def flushLoop (tex : TexMap) : List DrawCall → RenderState →
    Option RenderState
  | [], st => some st
  | dc :: rest, st =>
    match flushEntry tex st dc with
    | none => none
    | some st2 => flushLoop tex rest st2

/-- Lines 423–432: replay the whole `transparentDrawQueue`, then clear it
unconditionally. -/
def flushTransparentDrawQueue (tex : TexMap) (st : RenderState) :
    Option RenderState :=
  (flushLoop tex st.transparentDrawQueue st).map
    (fun st2 => { st2 with transparentDrawQueue := [] })

/-- The pedestrian loop (lines 300–311). -/
def renderWorldPedestrians (fr : Frustum) (tex : TexMap) (alpha : ℚ) :
    List CharacterObject → RenderState → Option RenderState
  | [], st => some st
  | c :: rest, st =>
    match renderWorldPedestrianStep fr tex alpha c st with
    | none => none
    | some st2 => renderWorldPedestrians fr tex alpha rest st2

/-- The instance loop (lines 313–383); each instance is paired with its
computed `mindist` value. -/
def renderWorldInstances (fr : Frustum) (tex : TexMap) (alpha : ℚ)
    (hour : ℤ) : List (InstanceObject × ℚ) → RenderState →
    Option RenderState
  | [], st => some st
  | p :: rest, st =>
    match renderWorldInstanceStep fr tex alpha hour p.1 p.2 st with
    | none => none
    | some st2 => renderWorldInstances fr tex alpha hour rest st2

/-- The vehicle loop (lines 385–420, wheels omitted). -/
def renderWorldVehicles (fr : Frustum) (tex : TexMap) (alpha : ℚ) :
    List VehicleObjectData → RenderState → Option RenderState
  | [], st => some st
  | v :: rest, st =>
    match renderWorldVehicleStep fr tex alpha v st with
    | none => none
    | some st2 => renderWorldVehicles fr tex alpha rest st2

/-- The object passes of `renderWorld` in source order: pedestrians, then
instances, then vehicles (all opaque submissions), then the transparency
flush (lines 300–432). -/
def renderWorldScene (fr : Frustum) (tex : TexMap) (alpha : ℚ) (hour : ℤ)
    (peds : List CharacterObject) (insts : List (InstanceObject × ℚ))
    (vehs : List VehicleObjectData) (st : RenderState) :
    Option RenderState :=
  match renderWorldPedestrians fr tex alpha peds st with
  | none => none
  | some st1 =>
    match renderWorldInstances fr tex alpha hour insts st1 with
    | none => none
    | some st2 =>
      match renderWorldVehicles fr tex alpha vehs st2 with
      | none => none
      | some st3 => flushTransparentDrawQueue tex st3

/-- The world-space centre of HQ water tile `(x, y)` (lines 456–457):
`waterOffset + blockHQSize*(x,y) + blockHQSize/2`, where
`waterOffset = (-WATER_WORLD_SIZE/2, -WATER_WORLD_SIZE/2)` and
`blockHQSize = WATER_WORLD_SIZE / WATER_HQ_DATA_SIZE`.  The grid constants
are modelled from the spec as parameters: they come from a header that is
not under `src/`. -/
def hqCullWS (worldSize : ℚ) (hqDataSize : ℕ) (x y : ℕ) : Vec2 :=
  let bs := worldSize / hqDataSize
  ⟨-worldSize / 2 + bs * x + bs / 2, -worldSize / 2 + bs * y + bs / 2⟩

/-- The world-space centre of LQ water tile `(x, y)` (lines 479–480). -/
def lqCullWS (worldSize : ℚ) (lqDataSize : ℕ) (x y : ℕ) : Vec2 :=
  let bs := worldSize / lqDataSize
  ⟨-worldSize / 2 + bs * x + bs / 2, -worldSize / 2 + bs * y + bs / 2⟩

/-- The HQ water tile decision (lines 458–472): the tile is drawn iff the
camera distance to its centre minus the full HQ tile size is below
`WATER_HQ_DISTANCE` and its `realWater` entry `hI` is below
`NO_WATER_INDEX`.  `d` is `glm::distance(camposFlat, cullWS)` and
`hI = realWater[x*WATER_HQ_DATA_SIZE + y]`, both passed in. -/
def hqTileDraw (worldSize : ℚ) (hqDataSize : ℕ) (hqDistance : ℚ)
    (noWaterIndex : ℤ) (d : ℚ) (hI : ℤ) : Bool :=
  let bs := worldSize / hqDataSize
  if decide (d - bs ≥ hqDistance) then false
  else if decide (hI ≥ noWaterIndex) then false
  else true

/-- The LQ water tile decision (lines 481–496): skipped when the camera
distance minus a quarter HQ tile is still inside `WATER_HQ_DISTANCE`, or
when the distance minus half an LQ tile exceeds the far clip, or when the
`visibleWater` entry is the no-water sentinel. -/
def lqTileDraw (worldSize : ℚ) (hqDataSize lqDataSize : ℕ)
    (hqDistance farClip : ℚ) (noWaterIndex : ℤ) (d : ℚ) (hI : ℤ) : Bool :=
  let bhq := worldSize / hqDataSize
  let blq := worldSize / lqDataSize
  if decide (d - bhq / 4 < hqDistance) then false
  else if decide (d - blq / 2 > farClip) then false
  else if decide (hI ≥ noWaterIndex) then false
  else true

/-- Whether an event is a draw submission for geometry chunk `g`. -/
def GLEvent.drawsChunk (e : GLEvent) (g : ℕ) : Bool :=
  match e with
  | .drawElements _ g2 _ _ _ => g2 == g
  | _ => false

/-- The draw submissions for chunk `g` within an event list. -/
def chunkDrawEvents (g : ℕ) (es : List GLEvent) : List GLEvent :=
  es.filter (fun e => e.drawsChunk g)

/-- The queued deferred draws for chunk `g`. -/
def chunkQueueEntries (g : ℕ) (q : List DrawCall) : List DrawCall :=
  q.filter (fun dc => dc.g == g)

/-- Witness fixture: the plane `z ≥ 0` as a frustum half-space. -/
def planeW : Plane := ⟨⟨0, 0, 1⟩, 0⟩

/-- Witness fixture: a six-plane frustum. -/
def frustumW : Frustum :=
  ⟨[planeW, planeW, planeW, planeW, planeW, planeW]⟩

/-- Witness fixture: a unit-radius chunk at the model origin with one
subgeometry and no materials. -/
def geomW : Geometry :=
  { boundsCenter := ⟨0, 0, 0⟩, boundsRadius := 1,
    subgeom := [⟨0, 0, 3⟩], materials := [], moduleMaterialColor := false,
    dbuffVAOName := 1, ebo := 2, faceType := 4 }

/-- Witness fixture: a single frame owning chunk 0. -/
def frameW : ModelFrame := .mk "root" Mat4.identity [0] []

/-- Witness fixture: a one-frame one-chunk model. -/
def modelW : Model :=
  { frames := [frameW], rootFrameIdx := 0, geometries := [geomW] }

/-- Witness fixture: a world transform placing the object at `z = -10`,
behind the `z ≥ 0` half-space by more than the chunk radius. -/
def matrixW : Mat4 := translationMatrix ⟨0, 0, -10⟩

/-- Witness fixture: the empty texture cache. -/
def texW : TexMap := []

/-- Witness fixture: a character object whose hide flags hide the frame
named "root". -/
def objHiddenW : GameObject :=
  { type := GameObjectType.Character,
    colourPrimary := ⟨1, 0, 0⟩, colourSecondary := ⟨0, 1, 0⟩,
    animator := none, animationFixed := false,
    hiddenFrames := ["root"] }

/-- Witness fixture: a chunk whose single subgeometry refers to material 5
while the materials list is empty. -/
def geomOutOfRangeW : Geometry :=
  { boundsCenter := ⟨0, 0, 0⟩, boundsRadius := 1,
    subgeom := [⟨5, 0, 6⟩], materials := [], moduleMaterialColor := true,
    dbuffVAOName := 3, ebo := 4, faceType := 4 }

/-- Witness fixture: a model holding `geomOutOfRangeW` as chunk 0. -/
def modelOutOfRangeW : Model :=
  { frames := [.mk "root" Mat4.identity [0] []], rootFrameIdx := 0,
    geometries := [geomOutOfRangeW] }

/-- Witness fixture: a transparent texture named "water" in the cache. -/
def texCacheW : TexMap := [("water", ⟨7, true⟩)]

/-- Witness fixture: a material whose first texture reference is "water". -/
def matTexW : Material :=
  { colour := ⟨255, 0, 0⟩, textures := ["water"],
    flagPrimaryColour := false, flagSecondaryColour := false,
    diffuseIntensity := 9 / 10, ambientIntensity := 1 / 10 }

/-- Witness fixture: a chunk with one subgeometry using `matTexW`. -/
def geomTexW : Geometry :=
  { boundsCenter := ⟨0, 0, 0⟩, boundsRadius := 1,
    subgeom := [⟨0, 0, 6⟩], materials := [matTexW],
    moduleMaterialColor := true, dbuffVAOName := 5, ebo := 6,
    faceType := 4 }

/-- Witness fixture: a model holding `geomTexW` as chunk 0. -/
def modelTexW : Model :=
  { frames := [.mk "root" Mat4.identity [0] []], rootFrameIdx := 0,
    geometries := [geomTexW] }

/-- Witness fixture: far-LOD child frame. -/
def frameFarW : ModelFrame := .mk "lod" Mat4.identity [0] []

/-- Witness fixture: near-LOD child frame. -/
def frameNearW : ModelFrame := .mk "hi" Mat4.identity [0] []

/-- Witness fixture: a multi-clump root with far and near children. -/
def rootMultiClumpW : ModelFrame :=
  .mk "root" Mat4.identity [] [frameFarW, frameNearW]

/-- Witness fixture: the multi-clump model. -/
def modelMultiClumpW : Model :=
  { frames := [rootMultiClumpW], rootFrameIdx := 0,
    geometries := [geomW] }

/-- Witness fixture: a multi-clump instance with draw distances 20 and 50
and no time window. -/
def instMultiClumpW : InstanceObject :=
  { object := { timeOn := 0, timeOff := 0, numClumps := 2,
                drawDistance0 := 20, drawDistance1 := 50, LOD := false },
    modelHandle := some modelMultiClumpW, body := none,
    position := ⟨0, 0, 0⟩, scale := ⟨1, 1, 1⟩,
    rotationMat := Mat4.identity, LODinstance := none }

/-- Counterexample fixture: a single-clump instance beyond its draw
distance with no linked LOD instance. -/
def instNoLodW : InstanceObject :=
  { object := { timeOn := 0, timeOff := 0, numClumps := 1,
                drawDistance0 := 10, drawDistance1 := 0, LOD := false },
    modelHandle := some modelW, body := none,
    position := ⟨0, 0, 0⟩, scale := ⟨1, 1, 1⟩,
    rotationMat := Mat4.identity, LODinstance := none }

/-- Counterexample fixture: a single-clump instance within its draw
distance that is itself flagged as a LOD model. -/
def instLodFlagW : InstanceObject :=
  { object := { timeOn := 0, timeOff := 0, numClumps := 1,
                drawDistance0 := 10, drawDistance1 := 0, LOD := true },
    modelHandle := some modelW, body := none,
    position := ⟨0, 0, 0⟩, scale := ⟨1, 1, 1⟩,
    rotationMat := Mat4.identity, LODinstance := none }

/-- Counterexample fixture: an instance with the non-wrapping active window
`timeOn = 6, timeOff = 20`, a LOD link whose threshold it exceeds, and no
physics body. -/
def instTimeW : InstanceObject :=
  { object := { timeOn := 6, timeOff := 20, numClumps := 1,
                drawDistance0 := 1, drawDistance1 := 0, LOD := false },
    modelHandle := some modelW, body := none,
    position := ⟨0, 0, 0⟩, scale := ⟨1, 1, 1⟩,
    rotationMat := Mat4.identity,
    LODinstance := some ⟨1, none⟩ }

/-- Witness fixture: an instance with the wrap-around active window
`timeOn = 20, timeOff = 6`. -/
def instWrapW : InstanceObject :=
  { object := { timeOn := 20, timeOff := 6, numClumps := 1,
                drawDistance0 := 10, drawDistance1 := 0, LOD := false },
    modelHandle := some modelW, body := none,
    position := ⟨0, 0, 0⟩, scale := ⟨1, 1, 1⟩,
    rotationMat := Mat4.identity, LODinstance := none }

/-- Witness fixture: a plain character game object. -/
def objCharacterW : GameObject :=
  { type := GameObjectType.Character,
    colourPrimary := ⟨0, 0, 0⟩, colourSecondary := ⟨0, 0, 0⟩,
    animator := none, animationFixed := false, hiddenFrames := [] }

/-- Witness fixture: a vehicle game object with distinct body colours. -/
def objVehicleW : GameObject :=
  { type := GameObjectType.Vehicle,
    colourPrimary := ⟨1, 0, 0⟩, colourSecondary := ⟨0, 0, 1⟩,
    animator := none, animationFixed := false, hiddenFrames := [] }

/-- Counterexample fixture: a pedestrian whose model is not loaded. -/
def pedMissingW : CharacterObject :=
  { position := ⟨0, 0, 0⟩, rotationMat := Mat4.identity,
    modelHandle := none, gameObject := objCharacterW }

/-- Counterexample fixture: a vehicle whose model handle is null. -/
def vehMissingW : VehicleObjectData :=
  { position := ⟨0, 0, 0⟩, rotationMat := Mat4.identity,
    model := none, modelName := "kuruma", gameObject := objVehicleW }

/-- The world-space anchor (tile position) of HQ water tile `(x, y)`
(line 456): `waterOffset + blockHQSize * (x, y)`. -/
def hqWaterWS (worldSize : ℚ) (hqDataSize : ℕ) (x y : ℕ) : Vec2 :=
  let bs := worldSize / hqDataSize
  ⟨-worldSize / 2 + bs * x, -worldSize / 2 + bs * y⟩

/-- The world-space anchor (tile position) of LQ water tile `(x, y)`
(line 479). -/
def lqWaterWS (worldSize : ℚ) (lqDataSize : ℕ) (x y : ℕ) : Vec2 :=
  let bs := worldSize / lqDataSize
  ⟨-worldSize / 2 + bs * x, -worldSize / 2 + bs * y⟩

/-- Whether the subgeometry's resolved texture is transparent — the
condition under which `renderSubgeometry` defers during the opaque pass
(independent of the render state). -/
def subgeomDefersB (tex : TexMap) (model : Model) (g sg : ℕ) : Bool :=
  match model.geometries.get? g with
  | none => false
  | some geom =>
    match geom.subgeom.get? sg with
    | none => false
    | some subgeom =>
      match geom.materials.get? subgeom.material with
      | none => false
      | some mat =>
        match mat.textures.head? with
        | none => false
        | some texName =>
          match findTexture tex texName with
          | none => false
          | some ti => ti.transparent

/-- Counterexample fixture: a textureless material with byte colour
`(51, 51, 51)` (giving the non-white tint `51/255 = 1/5`). -/
def matColourW : Material :=
  { colour := ⟨51, 51, 51⟩, textures := [],
    flagPrimaryColour := false, flagSecondaryColour := false,
    diffuseIntensity := 1, ambientIntensity := 1 }

/-- Counterexample fixture: a chunk with the `ModuleMaterialColor` flag set
and `matColourW` as its only material. -/
def geomColourW : Geometry :=
  { boundsCenter := ⟨0, 0, 0⟩, boundsRadius := 1,
    subgeom := [⟨0, 0, 6⟩], materials := [matColourW],
    moduleMaterialColor := true, dbuffVAOName := 8, ebo := 9,
    faceType := 4 }

/-- Counterexample fixture: the model owning `geomColourW`. -/
def modelColourW : Model :=
  { frames := [.mk "root" Mat4.identity [0] []], rootFrameIdx := 0,
    geometries := [geomColourW] }

/-- Counterexample fixture: a deferred DrawCall for that chunk. -/
def dcColourW : DrawCall :=
  { model := modelColourW, g := 0, sg := 0, matrix := Mat4.identity,
    object := none }

/-- Counterexample fixture: the render state holding one queued draw. -/
def stQueuedW : RenderState := ⟨0, 0, [dcColourW], []⟩

/-- Counterexample fixture: the state after flushing `stQueuedW`. -/
def stFlushedW : RenderState :=
  ⟨1, 0, [],
   [GLEvent.uniformModel Mat4.identity, GLEvent.uniformCol 1 1 1 1,
    GLEvent.bindVertexArray 8, GLEvent.bindElementBuffer 9,
    GLEvent.uniformCol (51 / 255) (51 / 255) (51 / 255) 1,
    GLEvent.uniformMatDiffuse 1, GLEvent.uniformMatAmbient 1,
    GLEvent.drawElements 4 0 0 6 0]⟩

/-- A sphere is outside a plane (in the sense of the frustum test) iff its
signed distance is `< -radius`; `intersects` is false iff some plane has the
sphere entirely outside. -/
theorem Frustum.intersects_eq_false_iff (fr : Frustum) (c : Vec3) (r : ℚ) :
    fr.intersects c r = false ↔
      ∃ p ∈ fr.planes, planeSignedDistance p c < -r := by
  simp [Frustum.intersects, List.all_eq_true]

theorem ModelFrame.sizeOf_children_lt (f : ModelFrame) :
    sizeOf f.children < sizeOf f := by
  cases f with
  | mk n t gs cs => simp [ModelFrame.children]

theorem chunkDrawEvents_append (g : ℕ) (es fs : List GLEvent) :
    chunkDrawEvents g (es ++ fs) =
      chunkDrawEvents g es ++ chunkDrawEvents g fs := by
  simp [chunkDrawEvents, List.filter_append]

theorem chunkQueueEntries_append (g : ℕ) (q r : List DrawCall) :
    chunkQueueEntries g (q ++ r) =
      chunkQueueEntries g q ++ chunkQueueEntries g r := by
  simp [chunkQueueEntries, List.filter_append]

theorem materialColourState_queue (geom : Geometry) (mat : Material)
    (object : Option GameObject) (st : RenderState) :
    (materialColourState geom mat object st).transparentDrawQueue =
      st.transparentDrawQueue := by
  unfold materialColourState
  split <;> (try split) <;> (try split) <;> (try split) <;> (try split) <;>
    simp [RenderState.emit]

theorem materialColourState_drawEvents (g : ℕ) (geom : Geometry)
    (mat : Material) (object : Option GameObject) (st : RenderState) :
    chunkDrawEvents g (materialColourState geom mat object st).events =
      chunkDrawEvents g st.events := by
  unfold materialColourState
  split <;> (try split) <;> (try split) <;> (try split) <;> (try split) <;>
    simp [RenderState.emit, chunkDrawEvents_append, chunkDrawEvents,
      GLEvent.drawsChunk]

theorem materialIntensityState_queue (mat : Material) (st : RenderState) :
    (materialIntensityState mat st).transparentDrawQueue =
      st.transparentDrawQueue := by
  simp [materialIntensityState, RenderState.emit]

theorem materialIntensityState_drawEvents (g : ℕ) (mat : Material)
    (st : RenderState) :
    chunkDrawEvents g (materialIntensityState mat st).events =
      chunkDrawEvents g st.events := by
  simp [materialIntensityState, RenderState.emit, chunkDrawEvents_append,
    chunkDrawEvents, GLEvent.drawsChunk]

theorem finishSubgeometryDraw_queue (geom : Geometry) (g sg : ℕ)
    (subgeom : SubGeometry) (st : RenderState) :
    (finishSubgeometryDraw geom g sg subgeom st).transparentDrawQueue =
      st.transparentDrawQueue := by
  simp [finishSubgeometryDraw]

theorem finishSubgeometryDraw_drawEvents (gx g sg : ℕ) (geom : Geometry)
    (subgeom : SubGeometry) (st : RenderState) (hne : gx ≠ g) :
    chunkDrawEvents gx (finishSubgeometryDraw geom g sg subgeom st).events =
      chunkDrawEvents gx st.events := by
  simp [finishSubgeometryDraw, chunkDrawEvents_append, chunkDrawEvents,
    GLEvent.drawsChunk, Ne.symm hne]

theorem materialColourState_culled (geom : Geometry) (mat : Material)
    (object : Option GameObject) (st : RenderState) :
    (materialColourState geom mat object st).culled = st.culled := by
  unfold materialColourState
  split <;> (try split) <;> (try split) <;> (try split) <;> (try split) <;>
    simp [RenderState.emit]

/-- State facts about the common "material present, draw goes through"
tail of `renderSubgeometry`. -/
theorem subgeomDrawTail_preserves (g sg : ℕ) (geom : Geometry)
    (mat : Material) (object : Option GameObject) (subgeom : SubGeometry)
    (st : RenderState) :
    (finishSubgeometryDraw geom g sg subgeom
        (materialIntensityState mat
          (materialColourState geom mat object st))).transparentDrawQueue =
      st.transparentDrawQueue ∧
    (finishSubgeometryDraw geom g sg subgeom
        (materialIntensityState mat
          (materialColourState geom mat object st))).culled = st.culled ∧
    ∀ gx, gx ≠ g →
      chunkDrawEvents gx (finishSubgeometryDraw geom g sg subgeom
        (materialIntensityState mat
          (materialColourState geom mat object st))).events =
      chunkDrawEvents gx st.events := by
  refine ⟨?_, ?_, fun gx hx => ?_⟩
  · rw [finishSubgeometryDraw_queue, materialIntensityState_queue,
      materialColourState_queue]
  · rw [show (finishSubgeometryDraw geom g sg subgeom _).culled =
        (materialIntensityState mat
          (materialColourState geom mat object st)).culled by
        simp [finishSubgeometryDraw]]
    rw [show (materialIntensityState mat _).culled =
        (materialColourState geom mat object st).culled by
        simp [materialIntensityState, RenderState.emit]]
    exact materialColourState_culled geom mat object st
  · rw [finishSubgeometryDraw_drawEvents _ _ _ _ _ _ hx,
      materialIntensityState_drawEvents, materialColourState_drawEvents]

/-- `renderSubgeometry` never touches the deferral queue or the cull
counter, and every draw submission it records is for its own geometry
chunk. -/
theorem renderSubgeometry_preserves (tex : TexMap) (model : Model)
    (g sg : ℕ) (matrix : Mat4) (object : Option GameObject) (qt : Bool)
    (st : RenderState) (b : Bool) (st2 : RenderState)
    (h : renderSubgeometry tex model g sg matrix object qt st =
      some (b, st2)) :
    st2.transparentDrawQueue = st.transparentDrawQueue ∧
    st2.culled = st.culled ∧
    ∀ gx, gx ≠ g → chunkDrawEvents gx st2.events =
      chunkDrawEvents gx st.events := by
  have hbind : ∀ (stx : RenderState) (v e : ℕ),
      ((stx.emit (.bindVertexArray v)).emit
        (.bindElementBuffer e)).transparentDrawQueue =
          stx.transparentDrawQueue ∧
      ((stx.emit (.bindVertexArray v)).emit
        (.bindElementBuffer e)).culled = stx.culled ∧
      ∀ gx, chunkDrawEvents gx ((stx.emit (.bindVertexArray v)).emit
        (.bindElementBuffer e)).events = chunkDrawEvents gx stx.events := by
    intro stx v e
    refine ⟨by simp [RenderState.emit], by simp [RenderState.emit],
      fun gx => ?_⟩
    simp [RenderState.emit, chunkDrawEvents_append, chunkDrawEvents,
      GLEvent.drawsChunk]
  unfold renderSubgeometry at h
  split at h
  · exact absurd h (by simp)
  · split at h
    · exact absurd h (by simp)
    · split at h
      · split at h
        · split at h
          · split at h
            · injection h with h1
              injection h1 with hb hst
              subst hb
              subst hst
              exact ⟨(hbind st _ _).1, (hbind st _ _).2.1,
                fun gx _ => (hbind st _ _).2.2 gx⟩
            · injection h with h1
              injection h1 with hb hst
              subst hb
              subst hst
              obtain ⟨hq, hc, he⟩ := subgeomDrawTail_preserves g sg _ _
                object _ (((st.emit (.bindVertexArray _)).emit
                  (.bindElementBuffer _)).emit (.bindTexture _))
              refine ⟨?_, ?_, fun gx hx => ?_⟩
              · rw [hq]; simp [RenderState.emit]
              · rw [hc]; simp [RenderState.emit]
              · rw [he gx hx]
                simp [RenderState.emit, chunkDrawEvents_append,
                  chunkDrawEvents, GLEvent.drawsChunk]
          · injection h with h1
            injection h1 with hb hst
            subst hb
            subst hst
            obtain ⟨hq, hc, he⟩ := subgeomDrawTail_preserves g sg _ _
              object _ ((st.emit (.bindVertexArray _)).emit
                (.bindElementBuffer _))
            refine ⟨?_, ?_, fun gx hx => ?_⟩
            · rw [hq]; simp [RenderState.emit]
            · rw [hc]; simp [RenderState.emit]
            · rw [he gx hx]
              simp [RenderState.emit, chunkDrawEvents_append,
                chunkDrawEvents, GLEvent.drawsChunk]
        · injection h with h1
          injection h1 with hb hst
          subst hb
          subst hst
          obtain ⟨hq, hc, he⟩ := subgeomDrawTail_preserves g sg _ _
            object _ ((st.emit (.bindVertexArray _)).emit
              (.bindElementBuffer _))
          refine ⟨?_, ?_, fun gx hx => ?_⟩
          · rw [hq]; simp [RenderState.emit]
          · rw [hc]; simp [RenderState.emit]
          · rw [he gx hx]
            simp [RenderState.emit, chunkDrawEvents_append,
              chunkDrawEvents, GLEvent.drawsChunk]
      · injection h with h1
        injection h1 with hb hst
        subst hb
        subst hst
        refine ⟨?_, ?_, fun gx hx => ?_⟩
        · rw [finishSubgeometryDraw_queue]; simp [RenderState.emit]
        · simp [finishSubgeometryDraw, RenderState.emit]
        · rw [finishSubgeometryDraw_drawEvents _ _ _ _ _ _ hx]
          simp [RenderState.emit, chunkDrawEvents_append, chunkDrawEvents,
            GLEvent.drawsChunk]

/-- The subgeometry loop for chunk `g` only queues entries for `g` and only
draws `g`. -/
theorem renderGeometryLoop_preserves (tex : TexMap) (model : Model) (g : ℕ)
    (mm : Mat4) (object : Option GameObject) (sgs : List ℕ)
    (st st2 : RenderState)
    (h : renderGeometryLoop tex model g mm object sgs st = some st2) :
    st2.culled = st.culled ∧
    ∀ gx, gx ≠ g →
      chunkDrawEvents gx st2.events = chunkDrawEvents gx st.events ∧
      chunkQueueEntries gx st2.transparentDrawQueue =
        chunkQueueEntries gx st.transparentDrawQueue := by
  induction sgs generalizing st with
  | nil =>
    simp only [renderGeometryLoop] at h
    injection h with h1
    subst h1
    exact ⟨rfl, fun gx _ => ⟨rfl, rfl⟩⟩
  | cons sg rest ih =>
    simp only [renderGeometryLoop] at h
    split at h
    · exact absurd h (by simp)
    next st3 hsub =>
      obtain ⟨hq3, hc3, he3⟩ := renderSubgeometry_preserves _ _ _ _ _ _ _ _
        _ _ hsub
      obtain ⟨hc, hrest⟩ := ih _ h
      refine ⟨hc.trans hc3, fun gx hx => ?_⟩
      obtain ⟨hev, hqu⟩ := hrest gx hx
      exact ⟨hev.trans (he3 gx hx), hqu.trans (by rw [hq3])⟩
    next st3 hsub =>
      obtain ⟨hq3, hc3, he3⟩ := renderSubgeometry_preserves _ _ _ _ _ _ _ _
        _ _ hsub
      obtain ⟨hc, hrest⟩ := ih _ h
      refine ⟨by simpa [RenderState.pushDraw] using hc.trans hc3,
        fun gx hx => ?_⟩
      obtain ⟨hev, hqu⟩ := hrest gx hx
      refine ⟨by simpa [RenderState.pushDraw] using hev.trans (he3 gx hx),
        ?_⟩
      rw [hqu]
      simp [RenderState.pushDraw, chunkQueueEntries_append, hq3,
        chunkQueueEntries, Ne.symm hx]

/-- `renderGeometry` on chunk `g` leaves every other chunk's draw record and
queue entries unchanged, and never changes the cull counter. -/
theorem renderGeometry_preserves (tex : TexMap) (model : Model) (g : ℕ)
    (mm : Mat4) (object : Option GameObject) (st st2 : RenderState)
    (h : renderGeometry tex model g mm object st = some st2) :
    st2.culled = st.culled ∧
    ∀ gx, gx ≠ g →
      chunkDrawEvents gx st2.events = chunkDrawEvents gx st.events ∧
      chunkQueueEntries gx st2.transparentDrawQueue =
        chunkQueueEntries gx st.transparentDrawQueue := by
  unfold renderGeometry at h
  split at h
  · exact absurd h (by simp)
  · obtain ⟨hc, hrest⟩ := renderGeometryLoop_preserves _ _ _ _ _ _ _ _ h
    refine ⟨by simpa [RenderState.emit] using hc, fun gx hx => ?_⟩
    obtain ⟨hev, hqu⟩ := hrest gx hx
    refine ⟨?_, by simpa [RenderState.emit] using hqu⟩
    rw [hev]
    simp [RenderState.emit, chunkDrawEvents_append, chunkDrawEvents,
      GLEvent.drawsChunk]

/-- One geometry iteration of `renderFrame`: if the visited chunk is `g`
and its frustum test (against the incoming matrix translation) fails, or the
visited chunk is a different one, then no draw and no queue entry is
produced for `g`. -/
theorem renderFrameGeomStep_preserves (fr : Frustum) (tex : TexMap)
    (m : Model) (vis : Bool) (matrix localmatrix : Mat4)
    (object : Option GameObject) (gv g : ℕ) (st st2 : RenderState)
    (hout : gv = g → ∀ geom, m.geometries.get? g = some geom →
      fr.intersects (geom.boundsCenter + matrix.translationCol)
        geom.boundsRadius = false)
    (h : renderFrameGeomStep fr tex m vis matrix localmatrix object gv st =
      some st2) :
    chunkDrawEvents g st2.events = chunkDrawEvents g st.events ∧
    chunkQueueEntries g st2.transparentDrawQueue =
      chunkQueueEntries g st.transparentDrawQueue := by
  unfold renderFrameGeomStep at h
  split at h
  · injection h with h1
    subst h1
    exact ⟨rfl, rfl⟩
  · split at h
    · exact absurd h (by simp)
    next geom hgeom =>
      by_cases hgv : gv = g
      · subst hgv
        have hfalse := hout rfl geom hgeom
        split at h
        · injection h with h1
          subst h1
          exact ⟨rfl, rfl⟩
        next hint =>
          rw [hfalse] at hint
          simp at hint
      · split at h
        · injection h with h1
          subst h1
          exact ⟨rfl, rfl⟩
        · change renderGeometry tex m gv localmatrix object
            (if (!geom.moduleMaterialColor) = true then
              st.emit (GLEvent.uniformCol 1 1 1 1) else st) = some st2 at h
          split at h
          · obtain ⟨hc, hrest⟩ := renderGeometry_preserves _ _ _ _ _ _ _ h
            obtain ⟨hev, hqu⟩ := hrest g (Ne.symm hgv)
            refine ⟨?_, ?_⟩
            · rw [hev]
              simp [RenderState.emit, chunkDrawEvents_append,
                chunkDrawEvents, GLEvent.drawsChunk]
            · rw [hqu]
              simp [RenderState.emit]
          · obtain ⟨hc, hrest⟩ := renderGeometry_preserves _ _ _ _ _ _ _ h
            obtain ⟨hev, hqu⟩ := hrest g (Ne.symm hgv)
            exact ⟨hev, hqu⟩

/-- The geometry loop of `renderFrame` over the frame's owned chunk list:
chunk `g` gets no draw and no queue entry when its test fails wherever it is
visited. -/
theorem renderFrameGeomList_preserves (fr : Frustum) (tex : TexMap)
    (m : Model) (vis : Bool) (matrix localmatrix : Mat4)
    (object : Option GameObject) (g : ℕ) (gs : List ℕ) :
    ∀ st st2 : RenderState,
      (∀ gv ∈ gs, gv = g → ∀ geom, m.geometries.get? g = some geom →
        fr.intersects (geom.boundsCenter + matrix.translationCol)
          geom.boundsRadius = false) →
      renderFrameGeomList fr tex m vis matrix localmatrix object gs st =
        some st2 →
      chunkDrawEvents g st2.events = chunkDrawEvents g st.events ∧
      chunkQueueEntries g st2.transparentDrawQueue =
        chunkQueueEntries g st.transparentDrawQueue := by
  induction gs with
  | nil =>
    intro st st2 hout h
    simp only [renderFrameGeomList] at h
    injection h with h1
    subst h1
    exact ⟨rfl, rfl⟩
  | cons gv rest ih =>
    intro st st2 hout h
    simp only [renderFrameGeomList] at h
    split at h
    · exact absurd h (by simp)
    next st3 hstep =>
      obtain ⟨hev3, hqu3⟩ := renderFrameGeomStep_preserves fr tex m vis
        matrix localmatrix object gv g st st3
        (fun hx => hout gv (List.mem_cons_self gv rest) hx) hstep
      obtain ⟨hev, hqu⟩ := ih st3 st2
        (fun gx hm hx => hout gx (List.mem_cons_of_mem gv hm) hx) h
      exact ⟨hev.trans hev3, hqu.trans hqu3⟩

/-- Traversal-level cull soundness: if every visit of chunk `g` in the
subtree fails the frustum test (with the incoming accumulated matrix of the
visiting frame), the whole traversal records no draw submission and no
deferral-queue entry for `g`. -/
theorem renderFrame_culled_preserves (fr : Frustum) (tex : TexMap)
    (alpha : ℚ) (m : Model) (object : Option GameObject) (qt : Bool)
    (g : ℕ) :
    ∀ n : ℕ, ∀ f : ModelFrame, sizeOf f ≤ n →
    ∀ (matrix : Mat4) (st : RenderState) (b : Bool) (st2 : RenderState),
      (∀ p ∈ frameVisits alpha object f matrix, p.1 = g →
        ∀ geom, m.geometries.get? g = some geom →
          fr.intersects (geom.boundsCenter + p.2.translationCol)
            geom.boundsRadius = false) →
      renderFrame fr tex alpha m f matrix object qt st = some (b, st2) →
      chunkDrawEvents g st2.events = chunkDrawEvents g st.events ∧
      chunkQueueEntries g st2.transparentDrawQueue =
        chunkQueueEntries g st.transparentDrawQueue := by
  intro n
  induction n with
  | zero =>
    intro f hle
    exact absurd hle (by cases f <;> simp)
  | succ n ihn =>
    intro f hle matrix st b st2 hout h
    obtain ⟨nm, t, gs, cs⟩ := f
    have hchild : ∀ csx : List ModelFrame, sizeOf csx ≤ n →
        ∀ (matrixc : Mat4) (stc stc2 : RenderState),
        (∀ p ∈ frameVisitsList alpha object csx matrixc, p.1 = g →
          ∀ geom, m.geometries.get? g = some geom →
            fr.intersects (geom.boundsCenter + p.2.translationCol)
              geom.boundsRadius = false) →
        renderFrameChildren fr tex alpha m csx matrixc object qt stc =
          some stc2 →
        chunkDrawEvents g stc2.events = chunkDrawEvents g stc.events ∧
        chunkQueueEntries g stc2.transparentDrawQueue =
          chunkQueueEntries g stc.transparentDrawQueue := by
      intro csx
      induction csx with
      | nil =>
        intro hsz matrixc stc stc2 houtc hc
        simp only [renderFrameChildren] at hc
        injection hc with hc1
        subst hc1
        exact ⟨rfl, rfl⟩
      | cons c restx ihc =>
        intro hsz matrixc stc stc2 houtc hc
        simp only [renderFrameChildren] at hc
        split at hc
        · exact absurd hc (by simp)
        next bc stc3 hcall =>
          have hszc : sizeOf c ≤ n := by
            have := List.cons.sizeOf_spec c restx
            omega
          have hszr : sizeOf restx ≤ n := by
            have := List.cons.sizeOf_spec c restx
            omega
          obtain ⟨hev3, hqu3⟩ := ihn c hszc matrixc stc bc stc3
            (fun p hp hpg => houtc p (by
              simp only [frameVisitsList]
              exact List.mem_append_left _ hp) hpg) hcall
          obtain ⟨hev, hqu⟩ := ihc hszr matrixc stc3 stc2
            (fun p hp hpg => houtc p (by
              simp only [frameVisitsList]
              exact List.mem_append_right _ hp) hpg) hc
          exact ⟨hev.trans hev3, hqu.trans hqu3⟩
    simp only [renderFrame] at h
    split at h
    · exact absurd h (by simp)
    next st1 hgl =>
      split at h
      · exact absurd h (by simp)
      next st4 hcs =>
        injection h with h1
        injection h1 with hb hst
        subst hst
        have hout1 : ∀ gv ∈ (ModelFrame.mk nm t gs cs).geometries,
            gv = g → ∀ geom, m.geometries.get? g = some geom →
            fr.intersects (geom.boundsCenter + matrix.translationCol)
              geom.boundsRadius = false := by
          intro gv hm hx geom hg
          refine hout (gv, matrix) ?_ hx geom hg
          simp only [frameVisits]
          exact List.mem_append_left _
            (List.mem_map.mpr ⟨gv, hm, rfl⟩)
        obtain ⟨hev1, hqu1⟩ := renderFrameGeomList_preserves fr tex m _
          matrix _ object g _ st st1 hout1 hgl
        have hszcs : sizeOf cs ≤ n := by
          have := ModelFrame.mk.sizeOf_spec nm t gs cs
          omega
        obtain ⟨hev4, hqu4⟩ := hchild cs hszcs _ st1 st4
          (fun p hp hpg => hout p (by
            simp only [frameVisits]
            exact List.mem_append_right _ (by
              simpa [ModelFrame.children] using hp)) hpg) (by
          simpa [ModelFrame.children] using hcs)
        exact ⟨hev4.trans hev1, hqu4.trans hqu1⟩

/-- C1: For every geometry chunk visited during frame traversal whose
world-space bounding sphere (chunk bounds centre translated by the frame's
accumulated position, with the chunk's radius) is entirely outside at least
one of the six frustum half-planes (signed distance to that plane
`< -radius`), no DrawCall is produced for that chunk in this frame: it is
neither submitted immediately (no `drawElements` for the chunk) nor placed
in the transparency deferral queue. -/
theorem C1_frustum_culled_chunk_no_drawcall (fr : Frustum) (tex : TexMap)
    (alpha : ℚ) (m : Model) (f : ModelFrame) (matrix : Mat4)
    (object : Option GameObject) (qt : Bool) (st : RenderState) (g : ℕ)
    (geom : Geometry) (hg : m.geometries.get? g = some geom)
    (hout : ∀ p ∈ frameVisits alpha object f matrix, p.1 = g →
      ∃ pl ∈ fr.planes,
        planeSignedDistance pl (geom.boundsCenter + p.2.translationCol) <
          -geom.boundsRadius)
    (b : Bool) (st2 : RenderState)
    (h : renderFrame fr tex alpha m f matrix object qt st = some (b, st2)) :
    chunkDrawEvents g st2.events = chunkDrawEvents g st.events ∧
    chunkQueueEntries g st2.transparentDrawQueue =
      chunkQueueEntries g st.transparentDrawQueue := by
  refine renderFrame_culled_preserves fr tex alpha m object qt g (sizeOf f)
    f le_rfl matrix st b st2 ?_ h
  intro p hp hpg geom2 hg2
  rw [hg] at hg2
  injection hg2 with hgeq
  subst hgeq
  exact (Frustum.intersects_eq_false_iff fr _ _).mpr (hout p hp hpg)

theorem Vec3.add_def (a b : Vec3) :
    a + b = ⟨a.x + b.x, a.y + b.y, a.z + b.z⟩ := rfl

theorem C1_frustum_culled_chunk_no_drawcall_witness :
    renderFrame frustumW texW 0 modelW frameW matrixW none true
      RenderState.initial = some (true, RenderState.initial) ∧
    chunkDrawEvents 0 RenderState.initial.events =
      chunkDrawEvents 0 RenderState.initial.events ∧
    chunkQueueEntries 0 RenderState.initial.transparentDrawQueue =
      chunkQueueEntries 0 RenderState.initial.transparentDrawQueue := by
  have hrun : renderFrame frustumW texW 0 modelW frameW matrixW none true
      RenderState.initial = some (true, RenderState.initial) := by
    norm_num [renderFrame, renderFrameChildren, renderFrameGeomList,
      renderFrameGeomStep, frameVis, frameLocalMatrix, Frustum.intersects,
      planeSignedDistance, frustumW, planeW, geomW, frameW, modelW, matrixW,
      translationMatrix, Mat4.identity, Mat4.translationCol, Vec3.add_def]
  refine ⟨hrun, ?_⟩
  refine C1_frustum_culled_chunk_no_drawcall frustumW texW 0 modelW frameW
    matrixW none true RenderState.initial 0 geomW rfl ?_ true
    RenderState.initial hrun
  intro p hp hpg
  have hv : frameVisits 0 none frameW matrixW = [(0, matrixW)] := by
    simp [frameVisits, frameVisitsList, frameW]
  rw [hv, List.mem_singleton] at hp
  subst hp
  refine ⟨planeW, by simp [frustumW], ?_⟩
  show planeSignedDistance planeW
    (geomW.boundsCenter + matrixW.translationCol) < -geomW.boundsRadius
  norm_num [planeSignedDistance, planeW, geomW, matrixW, translationMatrix,
    Mat4.identity, Mat4.translationCol, Vec3.add_def]

/-- With the frame hidden (`vis = false`), the geometry loop of
`renderFrame` is a no-op (each iteration `continue`s). -/
theorem renderFrameGeomList_hidden (fr : Frustum) (tex : TexMap) (m : Model)
    (matrix localmatrix : Mat4) (object : Option GameObject) (gs : List ℕ)
    (st : RenderState) :
    renderFrameGeomList fr tex m false matrix localmatrix object gs st =
      some st := by
  induction gs with
  | nil => simp [renderFrameGeomList]
  | cons g rest ih =>
    simp [renderFrameGeomList, renderFrameGeomStep, ih]

/-- C9: For every frame node visited by the traversal, `renderFrame`
recurses into every child frame even when the node itself is hidden by the
object's visibility flags (the whole call reduces to the child-list
traversal), and its return value is always `true` regardless of per-chunk
cull or defer outcomes. -/
theorem C9_children_traversed_result_true (fr : Frustum) (tex : TexMap)
    (alpha : ℚ) (m : Model) (f : ModelFrame) (matrix : Mat4)
    (object : Option GameObject) (qt : Bool) (st : RenderState) :
    (∀ r, renderFrame fr tex alpha m f matrix object qt st = some r →
      r.1 = true) ∧
    (frameVis object f = false →
      renderFrame fr tex alpha m f matrix object qt st =
        (renderFrameChildren fr tex alpha m f.children
          (frameLocalMatrix alpha object matrix f) object qt st).map
            (fun s => (true, s))) := by
  obtain ⟨nm, t, gs, cs⟩ := f
  constructor
  · intro r h
    simp only [renderFrame] at h
    split at h
    · exact absurd h (by simp)
    · split at h
      · exact absurd h (by simp)
      · injection h with h1
        subst h1
        rfl
  · intro hhid
    simp only [renderFrame, hhid, renderFrameGeomList_hidden,
      ModelFrame.children]
    cases hc : renderFrameChildren fr tex alpha m cs
        (frameLocalMatrix alpha object matrix (ModelFrame.mk nm t gs cs))
        object qt st with
    | none => simp
    | some st2 => simp

theorem C9_children_traversed_result_true_witness :
    frameVis (some objHiddenW) frameW = false ∧
    renderFrame frustumW texW 0 modelW frameW matrixW (some objHiddenW)
      true RenderState.initial =
      (renderFrameChildren frustumW texW 0 modelW frameW.children
        (frameLocalMatrix 0 (some objHiddenW) matrixW frameW)
        (some objHiddenW) true RenderState.initial).map
          (fun s => (true, s)) := by
  have hhid : frameVis (some objHiddenW) frameW = false := by
    simp [frameVis, GameObject.isFrameVisible, objHiddenW, frameW,
      ModelFrame.name]
  exact ⟨hhid,
    (C9_children_traversed_result_true frustumW texW 0 modelW frameW
      matrixW (some objHiddenW) true RenderState.initial).2 hhid⟩

/-- C10: For every subgeometry whose material index is out of range for the
owning chunk's materials list, the submission does not fail: no texture
binding, colour selection, or intensity update happens (the whole material
block is skipped), but the subgeometry is still drawn and `rendered` is
still incremented. -/
theorem C10_out_of_range_material_still_drawn (tex : TexMap) (model : Model)
    (g sg : ℕ) (matrix : Mat4) (object : Option GameObject) (qt : Bool)
    (st : RenderState) (geom : Geometry) (subgeom : SubGeometry)
    (hg : model.geometries.get? g = some geom)
    (hsg : geom.subgeom.get? sg = some subgeom)
    (hmat : geom.materials.length ≤ subgeom.material) :
    renderSubgeometry tex model g sg matrix object qt st =
      some (true,
        { rendered := st.rendered + 1,
          culled := st.culled,
          transparentDrawQueue := st.transparentDrawQueue,
          events := st.events ++
            [GLEvent.bindVertexArray geom.dbuffVAOName,
             GLEvent.bindElementBuffer geom.ebo,
             GLEvent.drawElements geom.faceType g sg subgeom.numIndices
               subgeom.start] }) := by
  have hnone : geom.materials.get? subgeom.material = none :=
    List.get?_eq_none.mpr hmat
  simp only [renderSubgeometry, hg, hsg, hnone, finishSubgeometryDraw,
    RenderState.emit]
  simp [List.append_assoc]

theorem C10_out_of_range_material_still_drawn_witness :
    renderSubgeometry texW modelOutOfRangeW 0 0 Mat4.identity none true
      RenderState.initial =
      some (true,
        { rendered := 1, culled := 0, transparentDrawQueue := [],
          events :=
            [GLEvent.bindVertexArray 3, GLEvent.bindElementBuffer 4,
             GLEvent.drawElements 4 0 0 6 0] }) := by
  have h := C10_out_of_range_material_still_drawn texW modelOutOfRangeW 0 0
    Mat4.identity none true RenderState.initial geomOutOfRangeW ⟨5, 0, 6⟩
    rfl rfl (by simp [geomOutOfRangeW])
  simpa [RenderState.initial, geomOutOfRangeW] using h

/-- C5: texture resolution in `renderSubgeometry`, for a material with at
least one texture reference.  If the texture is found in the cache, is
flagged transparent and the caller is in the opaque pass, resolution fails
with the defer signal (`false`) before any texture is bound; otherwise the
texture is bound and the draw succeeds.  A missing cache entry is non-fatal:
the draw proceeds untextured. -/
theorem C5_texture_resolution (tex : TexMap) (model : Model) (g sg : ℕ)
    (matrix : Mat4) (object : Option GameObject) (st : RenderState)
    (geom : Geometry) (subgeom : SubGeometry) (mat : Material)
    (texName : String)
    (hg : model.geometries.get? g = some geom)
    (hsg : geom.subgeom.get? sg = some subgeom)
    (hmat : geom.materials.get? subgeom.material = some mat)
    (htex : mat.textures.head? = some texName) :
    (∀ ti, findTexture tex texName = some ti →
      (∀ qt, (ti.transparent && qt) = true →
        renderSubgeometry tex model g sg matrix object qt st =
          some (false, (st.emit (.bindVertexArray geom.dbuffVAOName)).emit
            (.bindElementBuffer geom.ebo))) ∧
      (∀ qt, (ti.transparent && qt) = false →
        renderSubgeometry tex model g sg matrix object qt st =
          some (true, finishSubgeometryDraw geom g sg subgeom
            (materialIntensityState mat
              (materialColourState geom mat object
                (((st.emit (.bindVertexArray geom.dbuffVAOName)).emit
                  (.bindElementBuffer geom.ebo)).emit
                    (.bindTexture ti.texName))))))) ∧
    (findTexture tex texName = none → ∀ qt,
      renderSubgeometry tex model g sg matrix object qt st =
        some (true, finishSubgeometryDraw geom g sg subgeom
          (materialIntensityState mat
            (materialColourState geom mat object
              ((st.emit (.bindVertexArray geom.dbuffVAOName)).emit
                (.bindElementBuffer geom.ebo)))))) := by
  constructor
  · intro ti hti
    constructor
    · intro qt hqt
      simp only [renderSubgeometry, hg, hsg, hmat, htex, hti, hqt]
      simp
    · intro qt hqt
      simp only [renderSubgeometry, hg, hsg, hmat, htex, hti, hqt]
      simp
  · intro hti qt
    simp only [renderSubgeometry, hg, hsg, hmat, htex, hti]

theorem C5_texture_resolution_witness :
    renderSubgeometry texCacheW modelTexW 0 0 Mat4.identity none true
      RenderState.initial =
      some (false, (RenderState.initial.emit
        (.bindVertexArray geomTexW.dbuffVAOName)).emit
          (.bindElementBuffer geomTexW.ebo)) := by
  have h := (C5_texture_resolution texCacheW modelTexW 0 0 Mat4.identity
    none RenderState.initial geomTexW ⟨0, 0, 6⟩ matTexW "water" rfl rfl
    (by simp [geomTexW]) (by simp [matTexW])).1 ⟨7, true⟩
    (by simp [findTexture, texCacheW]) |>.1 true rfl
  exact h

/-- C2: multi-clump LOD selection (lines 363–382).  For an instance with
`numClumps != 1` (given at least two children under `frames[0]`):
`mindist > drawDistance[1]` culls (cull counter incremented, nothing
drawn); else if `mindist > drawDistance[0]` exactly the second-to-last
child subtree (far LOD) is traversed; else exactly the last child subtree
(near LOD) is traversed.  Strict `>` comparisons mean a distance equal to a
threshold selects the higher-detail branch, and the two child indices are
distinct, so the far-LOD case never touches the near-LOD subtree and vice
versa. -/
theorem C2_multiclump_lod_selection (fr : Frustum) (tex : TexMap)
    (alpha : ℚ) (hour : ℤ) (inst : InstanceObject) (mindist : ℚ)
    (st : RenderState) (model : Model) (rootFrame : ModelFrame)
    (hskip : instanceTimeSkipped hour inst.object = false)
    (hm : inst.modelHandle = some model)
    (hclumps : inst.object.numClumps ≠ 1)
    (hRF : model.frames.get? 0 = some rootFrame)
    (hlen : 2 ≤ rootFrame.children.length) :
    (mindist > inst.object.drawDistance1 →
      renderWorldInstanceStep fr tex alpha hour inst mindist st =
        some st.cullInc) ∧
    (¬(mindist > inst.object.drawDistance1) →
      mindist > inst.object.drawDistance0 →
      ∃ ffar, rootFrame.children.get?
          (rootFrame.children.length - 2) = some ffar ∧
        renderWorldInstanceStep fr tex alpha hour inst mindist st =
          (renderFrame fr tex alpha model ffar
            (instanceMatrixModel inst * ffar.transform.inverse) none true
            st).map (fun r => r.2)) ∧
    (¬(mindist > inst.object.drawDistance1) →
      ¬(mindist > inst.object.drawDistance0) →
      ∃ fnear, rootFrame.children.get?
          (rootFrame.children.length - 1) = some fnear ∧
        renderWorldInstanceStep fr tex alpha hour inst mindist st =
          (renderFrame fr tex alpha model fnear
            (instanceMatrixModel inst * fnear.transform.inverse) none true
            st).map (fun r => r.2)) ∧
    rootFrame.children.length - 2 ≠ rootFrame.children.length - 1 := by
  have hne : (inst.object.numClumps == 1) = false := by
    simp [hclumps]
  have hnlt2 : ¬(rootFrame.children.length < 2) := by omega
  have hnlt1 : ¬(rootFrame.children.length < 1) := by omega
  have hget2 : rootFrame.children.length - 2 <
      rootFrame.children.length := by omega
  have hget1 : rootFrame.children.length - 1 <
      rootFrame.children.length := by omega
  refine ⟨?_, ?_, ?_, by omega⟩
  · intro h1
    simp only [renderWorldInstanceStep, hskip, Bool.false_eq_true,
      if_false, renderWorldInstanceBody, hm, hne, decide_eq_true_eq]
    rw [if_pos h1]
  · intro h1 h0
    refine ⟨rootFrame.children.get ⟨rootFrame.children.length - 2, hget2⟩,
      List.get?_eq_get hget2, ?_⟩
    simp only [renderWorldInstanceStep, hskip, Bool.false_eq_true,
      if_false, renderWorldInstanceBody, hm, hne, decide_eq_true_eq]
    rw [if_neg h1, if_pos h0]
    simp only [hRF, hnlt2, if_false, List.get?_eq_get hget2]
  · intro h1 h0
    refine ⟨rootFrame.children.get ⟨rootFrame.children.length - 1, hget1⟩,
      List.get?_eq_get hget1, ?_⟩
    simp only [renderWorldInstanceStep, hskip, Bool.false_eq_true,
      if_false, renderWorldInstanceBody, hm, hne, decide_eq_true_eq]
    rw [if_neg h1, if_neg h0]
    simp only [hRF, hnlt1, if_false, List.get?_eq_get hget1]

theorem C2_multiclump_lod_selection_witness :
    ∃ ffar, rootMultiClumpW.children.get?
        (rootMultiClumpW.children.length - 2) = some ffar ∧
      renderWorldInstanceStep frustumW texW 0 12 instMultiClumpW 30
          RenderState.initial =
        (renderFrame frustumW texW 0 modelMultiClumpW ffar
          (instanceMatrixModel instMultiClumpW * ffar.transform.inverse)
          none true RenderState.initial).map (fun r => r.2) :=
  (C2_multiclump_lod_selection frustumW texW 0 12 instMultiClumpW 30
    RenderState.initial modelMultiClumpW rootMultiClumpW
    (by decide) rfl (by decide) rfl (by decide)).2.1
    (by norm_num [instMultiClumpW]) (by norm_num [instMultiClumpW])

/-- C3 (amended): single-clump LOD selection (lines 346–362).  Beyond
`drawDistance[0]`: with a linked LOD instance still beyond its own
threshold, the cull counter is incremented; with the linked instance within
threshold and its model loaded, the linked model is rendered at full
traversal; with the linked model unloaded, or with no linked LOD instance
at all, the instance is skipped with no draw and *no* cull-counter
increment.  Within `drawDistance[0]`, full detail is rendered iff the
object is not itself flagged as a LOD model (`object->LOD`); flagged
instances draw nothing in this pass. -/
theorem C3_amended_singleclump_lod (fr : Frustum) (tex : TexMap)
    (alpha : ℚ) (hour : ℤ) (inst : InstanceObject) (mindist : ℚ)
    (st : RenderState) (model : Model)
    (hskip : instanceTimeSkipped hour inst.object = false)
    (hm : inst.modelHandle = some model)
    (hclumps : inst.object.numClumps = 1) :
    (mindist > inst.object.drawDistance0 →
      (inst.LODinstance = none →
        renderWorldInstanceStep fr tex alpha hour inst mindist st =
          some st) ∧
      (∀ lod, inst.LODinstance = some lod →
        (mindist > lod.objectDrawDistance0 →
          renderWorldInstanceStep fr tex alpha hour inst mindist st =
            some st.cullInc) ∧
        (¬(mindist > lod.objectDrawDistance0) →
          (∀ lodModel, lod.modelHandle = some lodModel →
            renderWorldInstanceStep fr tex alpha hour inst mindist st =
              renderModel fr tex alpha lodModel (instanceMatrixModel inst)
                none st) ∧
          (lod.modelHandle = none →
            renderWorldInstanceStep fr tex alpha hour inst mindist st =
              some st)))) ∧
    (¬(mindist > inst.object.drawDistance0) →
      (inst.object.LOD = false →
        renderWorldInstanceStep fr tex alpha hour inst mindist st =
          renderModel fr tex alpha model (instanceMatrixModel inst) none
            st) ∧
      (inst.object.LOD = true →
        renderWorldInstanceStep fr tex alpha hour inst mindist st =
          some st)) := by
  have hone : (inst.object.numClumps == 1) = true := by
    simp [hclumps]
  constructor
  · intro h0
    constructor
    · intro hnolod
      simp only [renderWorldInstanceStep, hskip, Bool.false_eq_true,
        if_false, renderWorldInstanceBody, hm, hone, if_true,
        decide_eq_true_eq, hnolod]
      rw [if_pos h0]
    · intro lod hlod
      constructor
      · intro hbeyond
        simp only [renderWorldInstanceStep, hskip, Bool.false_eq_true,
          if_false, renderWorldInstanceBody, hm, hone, if_true,
          decide_eq_true_eq, hlod]
        rw [if_pos h0, if_pos hbeyond]
      · intro hwithin
        constructor
        · intro lodModel hlm
          simp only [renderWorldInstanceStep, hskip, Bool.false_eq_true,
            if_false, renderWorldInstanceBody, hm, hone, if_true,
            decide_eq_true_eq, hlod, hlm]
          rw [if_pos h0, if_neg hwithin]
        · intro hlm
          simp only [renderWorldInstanceStep, hskip, Bool.false_eq_true,
            if_false, renderWorldInstanceBody, hm, hone, if_true,
            decide_eq_true_eq, hlod, hlm]
          rw [if_pos h0, if_neg hwithin]
  · intro h0
    constructor
    · intro hflag
      simp only [renderWorldInstanceStep, hskip, Bool.false_eq_true,
        if_false, renderWorldInstanceBody, hm, hone, if_true,
        decide_eq_true_eq, hflag]
      rw [if_neg h0]
      simp
    · intro hflag
      simp only [renderWorldInstanceStep, hskip, Bool.false_eq_true,
        if_false, renderWorldInstanceBody, hm, hone, if_true,
        decide_eq_true_eq, hflag]
      rw [if_neg h0]
      simp

/-- C3 counterexample: at `mindist = 20 > drawDistance[0] = 10` with no
linked LOD instance, the step leaves the state untouched — in particular
the cull counter is *not* incremented, contrary to the claim; and at
`mindist = 5 ≤ 10` with the object flagged as a LOD model, nothing is
rendered, contrary to the claim's "full detail is rendered". -/
theorem C3_counterexample :
    renderWorldInstanceStep frustumW texW 0 12 instNoLodW 20
      RenderState.initial = some RenderState.initial ∧
    ¬(∃ st2, renderWorldInstanceStep frustumW texW 0 12 instNoLodW 20
        RenderState.initial = some st2 ∧
      st2.culled = RenderState.initial.culled + 1) ∧
    renderWorldInstanceStep frustumW texW 0 12 instLodFlagW 5
      RenderState.initial = some RenderState.initial ∧
    ¬(∃ st2, renderWorldInstanceStep frustumW texW 0 12 instLodFlagW 5
        RenderState.initial = some st2 ∧
      RenderState.initial.rendered < st2.rendered) := by
  have h1 : renderWorldInstanceStep frustumW texW 0 12 instNoLodW 20
      RenderState.initial = some RenderState.initial := by
    norm_num [renderWorldInstanceStep, instanceTimeSkipped,
      renderWorldInstanceBody, instNoLodW]
  have h2 : renderWorldInstanceStep frustumW texW 0 12 instLodFlagW 5
      RenderState.initial = some RenderState.initial := by
    norm_num [renderWorldInstanceStep, instanceTimeSkipped,
      renderWorldInstanceBody, instLodFlagW]
  refine ⟨h1, ?_, h2, ?_⟩
  · rintro ⟨st2, hst2, hc⟩
    rw [h1] at hst2
    injection hst2 with hst2
    subst hst2
    simp [RenderState.initial] at hc
  · rintro ⟨st2, hst2, hc⟩
    rw [h2] at hst2
    injection hst2 with hst2
    subst hst2
    simp [RenderState.initial] at hc

theorem C3_amended_singleclump_lod_witness :
    renderWorldInstanceStep frustumW texW 0 12 instNoLodW 20
      RenderState.initial = some RenderState.initial :=
  ((C3_amended_singleclump_lod frustumW texW 0 12 instNoLodW 20
    RenderState.initial modelW (by decide) rfl rfl).1
    (by norm_num [instNoLodW])).1 rfl

/-- C8 (amended): the instance time-of-day check (lines 316–322).  An
instance is skipped iff `timeOn != timeOff` and
`hour < timeOn && hour > timeOff`; otherwise it is processed normally.
For a wrap-around window (`timeOff < timeOn`) this is exactly "hour
strictly between `timeOff` and `timeOn`", i.e. outside the wrap-around
active window; for a non-wrapping window (`timeOn < timeOff`) the
condition is unsatisfiable, so no hour is ever skipped — even hours
outside the active window. -/
theorem C8_amended_time_window (fr : Frustum) (tex : TexMap) (alpha : ℚ)
    (hour : ℤ) (inst : InstanceObject) (mindist : ℚ) (st : RenderState) :
    (instanceTimeSkipped hour inst.object = true →
      renderWorldInstanceStep fr tex alpha hour inst mindist st =
        some st) ∧
    (instanceTimeSkipped hour inst.object = false →
      renderWorldInstanceStep fr tex alpha hour inst mindist st =
        renderWorldInstanceBody fr tex alpha inst mindist st) ∧
    (inst.object.timeOn < inst.object.timeOff →
      instanceTimeSkipped hour inst.object = false) ∧
    (inst.object.timeOff < inst.object.timeOn →
      (instanceTimeSkipped hour inst.object = true ↔
        inst.object.timeOff < hour ∧ hour < inst.object.timeOn)) := by
  refine ⟨?_, ?_, ?_, ?_⟩
  · intro h
    simp only [renderWorldInstanceStep, h, if_true]
  · intro h
    simp only [renderWorldInstanceStep, h, Bool.false_eq_true, if_false]
  · intro h
    have hne : (inst.object.timeOn != inst.object.timeOff) = true := by
      simp
      omega
    simp only [instanceTimeSkipped, hne, if_true]
    simp
    omega
  · intro h
    have hne : (inst.object.timeOn != inst.object.timeOff) = true := by
      simp
      omega
    simp only [instanceTimeSkipped, hne, if_true]
    simp
    omega

/-- C8 counterexample: at hour 23, outside the active window 6–20 of
`instTimeW`, the claim says the instance is skipped this frame; the code
processes it normally (here: it reaches the LOD logic and increments the
cull counter, changing the state). -/
theorem C8_counterexample :
    ¬((6 : ℤ) ≤ 23 ∧ (23 : ℤ) ≤ 20) ∧
    renderWorldInstanceStep frustumW texW 0 23 instTimeW 5
      RenderState.initial = some RenderState.initial.cullInc ∧
    some RenderState.initial.cullInc ≠ some RenderState.initial := by
  refine ⟨by omega, ?_, by simp [RenderState.cullInc, RenderState.initial]⟩
  norm_num [renderWorldInstanceStep, instanceTimeSkipped,
    renderWorldInstanceBody, instTimeW]

theorem C8_amended_time_window_witness :
    renderWorldInstanceStep frustumW texW 0 12 instWrapW 5
      RenderState.initial = some RenderState.initial :=
  (C8_amended_time_window frustumW texW 0 12 instWrapW 5
    RenderState.initial).1 (by decide)

/-- C6 (amended): missing-model handling differs per category.  Pedestrians
and instances with an unloaded model are skipped for the frame *silently*
(state unchanged — no log message); vehicles with a null model handle log
the condition but are *not* skipped: the loop goes on to dereference the
missing model (undefined behaviour, embedded as `none`), so the frame does
not complete normally.  The per-frame lookup still re-runs next frame for
the categories that skip. -/
theorem C6_amended_missing_model (fr : Frustum) (tex : TexMap)
    (alpha : ℚ) :
    (∀ (charac : CharacterObject) (st : RenderState),
      charac.modelHandle = none →
      renderWorldPedestrianStep fr tex alpha charac st = some st) ∧
    (∀ (hour : ℤ) (inst : InstanceObject) (mindist : ℚ)
        (st : RenderState),
      instanceTimeSkipped hour inst.object = false →
      inst.modelHandle = none →
      renderWorldInstanceStep fr tex alpha hour inst mindist st =
        some st) ∧
    (∀ (v : VehicleObjectData) (st : RenderState), v.model = none →
      renderWorldVehicleLog v st =
        st.emit (.logMessage ("model " ++ v.modelName ++ " not loaded")) ∧
      renderWorldVehicleStep fr tex alpha v st = none) := by
  refine ⟨?_, ?_, ?_⟩
  · intro charac st h
    simp only [renderWorldPedestrianStep, h]
  · intro hour inst mindist st hskip h
    simp only [renderWorldInstanceStep, hskip, Bool.false_eq_true,
      if_false, renderWorldInstanceBody, h]
  · intro v st h
    constructor
    · simp only [renderWorldVehicleLog, h]
    · simp only [renderWorldVehicleStep, renderWorldVehicleLog, h]

/-- C6 counterexample: a pedestrian with a missing model is skipped with
*no* log recorded (the state, whose event list is empty, is returned
unchanged), while a vehicle with a missing model is *not* skipped — the
step dereferences the missing model (embedded as `none`) instead of
completing the frame normally.  Both contradict "logs the condition and
skips that object for this frame". -/
theorem C6_counterexample :
    renderWorldPedestrianStep frustumW texW 0 pedMissingW
      RenderState.initial = some RenderState.initial ∧
    RenderState.initial.events = [] ∧
    renderWorldVehicleStep frustumW texW 0 vehMissingW
      RenderState.initial = none := by
  refine ⟨?_, rfl, ?_⟩
  · simp only [renderWorldPedestrianStep, pedMissingW]
  · simp only [renderWorldVehicleStep, renderWorldVehicleLog, vehMissingW]

theorem C6_amended_missing_model_witness :
    renderWorldVehicleLog vehMissingW RenderState.initial =
      RenderState.initial.emit
        (.logMessage ("model " ++ vehMissingW.modelName ++
          " not loaded")) ∧
    renderWorldVehicleStep frustumW texW 0 vehMissingW
      RenderState.initial = none :=
  (C6_amended_missing_model frustumW texW 0).2.2 vehMissingW
    RenderState.initial rfl

/-- C7 (amended): water tile draw decisions.  An HQ tile is drawn iff the
camera distance to its centre minus the *full* HQ tile size is below the
HQ distance and its height-table entry is below the no-water sentinel;
equivalently (squared form, via the true Euclidean distance) iff the
squared planar distance is below `(hqDistance + blockHQSize)²`.  An LQ tile
is drawn iff its centre distance minus a quarter HQ tile reaches the HQ
distance, minus half an LQ tile does not exceed the far clip, and its
entry is below the sentinel.  The two draw sets are determined
independently and may overlap (overlap exhibited in the counterexample). -/
theorem C7_amended_water_tiles (worldSize : ℚ) (hqDataSize lqDataSize : ℕ)
    (hqDistance farClip : ℚ) (noWaterIndex : ℤ) (campos : Vec2) (x y : ℕ)
    (d : ℚ) (hI : ℤ)
    (hd : IsDist campos (hqCullWS worldSize hqDataSize x y) d) :
    (hqTileDraw worldSize hqDataSize hqDistance noWaterIndex d hI = true ↔
      (d - worldSize / hqDataSize < hqDistance ∧ hI < noWaterIndex)) ∧
    (0 ≤ hqDistance + worldSize / hqDataSize →
      (d - worldSize / hqDataSize < hqDistance ↔
        dist2 campos (hqCullWS worldSize hqDataSize x y) <
          (hqDistance + worldSize / hqDataSize) ^ 2)) ∧
    (∀ (d2 : ℚ) (hI2 : ℤ),
      lqTileDraw worldSize hqDataSize lqDataSize hqDistance farClip
          noWaterIndex d2 hI2 = true ↔
        (¬(d2 - (worldSize / hqDataSize) / 4 < hqDistance) ∧
         ¬(d2 - (worldSize / lqDataSize) / 2 > farClip) ∧
         hI2 < noWaterIndex)) := by
  obtain ⟨hd0, hdsq⟩ := hd
  refine ⟨?_, ?_, ?_⟩
  · unfold hqTileDraw
    simp only [decide_eq_true_eq]
    by_cases h1 : d - worldSize / hqDataSize ≥ hqDistance
    · rw [if_pos h1]
      simp only [Bool.false_eq_true, false_iff]
      rintro ⟨ha, _⟩
      linarith
    · rw [if_neg h1]
      by_cases h2 : hI ≥ noWaterIndex
      · rw [if_pos h2]
        simp only [Bool.false_eq_true, false_iff]
        rintro ⟨_, hb⟩
        omega
      · rw [if_neg h2]
        constructor
        · intro _
          exact ⟨by linarith [not_le.mp h1], by omega⟩
        · intro _
          rfl
  · intro hpos
    rw [← hdsq]
    constructor
    · intro hlt
      have hdlt : d < hqDistance + worldSize / hqDataSize := by linarith
      exact pow_lt_pow_left hdlt hd0 (by norm_num)
    · intro hsq
      have hdlt : d < hqDistance + worldSize / hqDataSize := by
        by_contra hge
        push_neg at hge
        exact absurd hsq (not_lt.mpr (pow_le_pow_left hpos hge 2))
      linarith
  · intro d2 hI2
    unfold lqTileDraw
    simp only [decide_eq_true_eq]
    by_cases h1 : d2 - worldSize / hqDataSize / 4 < hqDistance
    · rw [if_pos h1]
      simp only [Bool.false_eq_true, false_iff]
      rintro ⟨ha, _, _⟩
      exact ha h1
    · rw [if_neg h1]
      by_cases h2 : d2 - worldSize / lqDataSize / 2 > farClip
      · rw [if_pos h2]
        simp only [Bool.false_eq_true, false_iff]
        rintro ⟨_, hb, _⟩
        exact hb h2
      · rw [if_neg h2]
        by_cases h3 : hI2 ≥ noWaterIndex
        · rw [if_pos h3]
          simp only [Bool.false_eq_true, false_iff]
          rintro ⟨_, _, hc⟩
          omega
        · rw [if_neg h3]
          constructor
          · intro _
            exact ⟨h1, h2, by omega⟩
          · intro _
            rfl

/-- C7 counterexample, with the repository's grid constants instantiated as
`WATER_WORLD_SIZE = 4096`, `WATER_HQ_DATA_SIZE = 128` (so the HQ tile size
is 32), `WATER_LQ_DATA_SIZE = 64`, `WATER_HQ_DISTANCE = 128`,
`NO_WATER_INDEX = 48`, far clip 1000.  First part: HQ tile `(0, 0)` with
camera at `(-1873, -2032)` has centre distance exactly 159; the code draws
it (`159 - 32 < 128`) although the claim's "distance minus half the tile
size below the HQ distance" is false (`159 - 16 ≥ 128`).  Second part: HQ
tile `(0, 0)` and LQ tile `(0, 0)` share the same world-space tile
position, and with camera at `(-2032, -2016 - 2880/19)` the exact centre
distances are `2576/19` (HQ) and `2896/19` (LQ) — both tiles are drawn the
same frame, refuting non-overlap. -/
theorem C7_counterexample :
    (IsDist ⟨-1873, -2032⟩ (hqCullWS 4096 128 0 0) 159 ∧
     hqTileDraw 4096 128 128 48 159 0 = true ∧
     ¬((159 : ℚ) - (4096 / 128) / 2 < 128)) ∧
    (hqWaterWS 4096 128 0 0 = lqWaterWS 4096 64 0 0 ∧
     IsDist ⟨-2032, -2016 - 2880 / 19⟩ (hqCullWS 4096 128 0 0)
       (2576 / 19) ∧
     IsDist ⟨-2032, -2016 - 2880 / 19⟩ (lqCullWS 4096 64 0 0)
       (2896 / 19) ∧
     hqTileDraw 4096 128 128 48 (2576 / 19) 0 = true ∧
     lqTileDraw 4096 128 64 128 1000 48 (2896 / 19) 0 = true) := by
  refine ⟨⟨⟨by norm_num, ?_⟩, ?_, by norm_num⟩,
    ⟨?_, ⟨by norm_num, ?_⟩, ⟨by norm_num, ?_⟩, ?_, ?_⟩⟩
  · norm_num [dist2, hqCullWS]
  · norm_num [hqTileDraw]
  · norm_num [hqWaterWS, lqWaterWS]
  · norm_num [dist2, hqCullWS]
  · norm_num [dist2, lqCullWS]
  · norm_num [hqTileDraw]
  · norm_num [lqTileDraw]

theorem C7_amended_water_tiles_witness :
    hqTileDraw 4096 128 128 48 159 0 = true ↔
      ((159 : ℚ) - 4096 / 128 < 128 ∧ (0 : ℤ) < 48) :=
  (C7_amended_water_tiles 4096 128 64 128 1000 48 ⟨-1873, -2032⟩ 0 0 159 0
    ⟨by norm_num, by norm_num [dist2, hqCullWS]⟩).1

theorem materialColourState_rendered (geom : Geometry) (mat : Material)
    (object : Option GameObject) (st : RenderState) :
    (materialColourState geom mat object st).rendered = st.rendered := by
  unfold materialColourState
  split <;> (try split) <;> (try split) <;> (try split) <;> (try split) <;>
    simp [RenderState.emit]

theorem materialIntensityState_rendered (mat : Material)
    (st : RenderState) :
    (materialIntensityState mat st).rendered = st.rendered := by
  simp [materialIntensityState, RenderState.emit]

theorem finishSubgeometryDraw_rendered (geom : Geometry) (g sg : ℕ)
    (subgeom : SubGeometry) (st : RenderState) :
    (finishSubgeometryDraw geom g sg subgeom st).rendered =
      st.rendered + 1 := by
  simp [finishSubgeometryDraw]

/-- The boolean result of `renderSubgeometry` is exactly "not (transparent
texture and opaque pass)", and a `true` result increments `rendered` by one
while a `false` result leaves it unchanged. -/
theorem renderSubgeometry_bool_rendered (tex : TexMap) (model : Model)
    (g sg : ℕ) (matrix : Mat4) (object : Option GameObject) (qt : Bool)
    (st : RenderState) (b : Bool) (st2 : RenderState)
    (h : renderSubgeometry tex model g sg matrix object qt st =
      some (b, st2)) :
    b = !(subgeomDefersB tex model g sg && qt) ∧
    (b = true → st2.rendered = st.rendered + 1) ∧
    (b = false → st2.rendered = st.rendered) := by
  unfold renderSubgeometry at h
  split at h
  · exact absurd h (by simp)
  next geom hg =>
    split at h
    · exact absurd h (by simp)
    next subgeom hsg =>
      split at h
      next mat hmat =>
        split at h
        next texName htex =>
          split at h
          next ti hti =>
            split at h
            next htr =>
              injection h with h1
              injection h1 with hb hst
              subst hb
              subst hst
              refine ⟨?_, ?_, ?_⟩
              · simp only [subgeomDefersB, hg, hsg, hmat, htex, hti, htr]
                rfl
              · intro hx
                exact absurd hx (by simp)
              · intro _
                simp [RenderState.emit]
            next htr =>
              rw [Bool.not_eq_true] at htr
              injection h with h1
              injection h1 with hb hst
              subst hb
              subst hst
              refine ⟨?_, ?_, ?_⟩
              · simp only [subgeomDefersB, hg, hsg, hmat, htex, hti, htr]
                rfl
              · intro _
                rw [finishSubgeometryDraw_rendered,
                  materialIntensityState_rendered,
                  materialColourState_rendered]
                simp [RenderState.emit]
              · intro hx
                exact absurd hx (by simp)
          next hti =>
            injection h with h1
            injection h1 with hb hst
            subst hb
            subst hst
            refine ⟨?_, ?_, ?_⟩
            · simp only [subgeomDefersB, hg, hsg, hmat, htex, hti]
              simp
            · intro _
              rw [finishSubgeometryDraw_rendered,
                materialIntensityState_rendered,
                materialColourState_rendered]
              simp [RenderState.emit]
            · intro hx
              exact absurd hx (by simp)
        next htex =>
          injection h with h1
          injection h1 with hb hst
          subst hb
          subst hst
          refine ⟨?_, ?_, ?_⟩
          · simp only [subgeomDefersB, hg, hsg, hmat, htex]
            simp
          · intro _
            rw [finishSubgeometryDraw_rendered,
              materialIntensityState_rendered,
              materialColourState_rendered]
            simp [RenderState.emit]
          · intro hx
            exact absurd hx (by simp)
      next hmat =>
        injection h with h1
        injection h1 with hb hst
        subst hb
        subst hst
        refine ⟨?_, ?_, ?_⟩
        · simp only [subgeomDefersB, hg, hsg, hmat]
          simp
        · intro _
          rw [finishSubgeometryDraw_rendered]
          simp [RenderState.emit]
        · intro hx
          exact absurd hx (by simp)

/-- Exactly-once deferral: the subgeometry loop appends to the queue
exactly one entry per deferring subgeometry, in order, with the chunk's
model, indices, world matrix and owning object. -/
theorem renderGeometryLoop_queue_exact (tex : TexMap) (model : Model)
    (g : ℕ) (mm : Mat4) (obj : Option GameObject) (sgs : List ℕ) :
    ∀ st st2 : RenderState,
      renderGeometryLoop tex model g mm obj sgs st = some st2 →
      st2.transparentDrawQueue = st.transparentDrawQueue ++
        (sgs.filter (fun sg => subgeomDefersB tex model g sg)).map
          (fun sg =>
            { model := model, g := g, sg := sg, matrix := mm,
              object := obj }) := by
  induction sgs with
  | nil =>
    intro st st2 h
    simp only [renderGeometryLoop] at h
    injection h with h1
    subst h1
    simp
  | cons sg rest ih =>
    intro st st2 h
    simp only [renderGeometryLoop] at h
    split at h
    · exact absurd h (by simp)
    next st3 hsub =>
      have hb := (renderSubgeometry_bool_rendered _ _ _ _ _ _ _ _ _ _
        hsub).1
      have hdef : subgeomDefersB tex model g sg = false := by
        cases hdf : subgeomDefersB tex model g sg
        · rfl
        · rw [hdf] at hb
          simp at hb
      have hq3 := (renderSubgeometry_preserves _ _ _ _ _ _ _ _ _ _ hsub).1
      have hfil : List.filter (fun s => subgeomDefersB tex model g s)
          (sg :: rest) =
          List.filter (fun s => subgeomDefersB tex model g s) rest := by
        simp [List.filter_cons, hdef]
      rw [ih st3 st2 h, hq3, hfil]
    next st3 hsub =>
      have hb := (renderSubgeometry_bool_rendered _ _ _ _ _ _ _ _ _ _
        hsub).1
      have hdef : subgeomDefersB tex model g sg = true := by
        cases hdf : subgeomDefersB tex model g sg
        · rw [hdf] at hb
          simp at hb
        · rfl
      have hq3 := (renderSubgeometry_preserves _ _ _ _ _ _ _ _ _ _ hsub).1
      have hfil : List.filter (fun s => subgeomDefersB tex model g s)
          (sg :: rest) =
          sg :: List.filter (fun s => subgeomDefersB tex model g s)
            rest := by
        simp [List.filter_cons, hdef]
      rw [ih _ st2 h]
      simp only [RenderState.pushDraw, hq3, hfil, List.map_cons,
        List.append_assoc, List.singleton_append]

/-- Each flush entry draws exactly once (`rendered` +1) and leaves the
queue and cull counter alone; the whole flush loop therefore adds the
queue length to `rendered`. -/
theorem flushLoop_rendered_queue (tex : TexMap) (dcs : List DrawCall) :
    ∀ st st2 : RenderState, flushLoop tex dcs st = some st2 →
      st2.rendered = st.rendered + dcs.length ∧
      st2.transparentDrawQueue = st.transparentDrawQueue ∧
      st2.culled = st.culled := by
  induction dcs with
  | nil =>
    intro st st2 h
    simp only [flushLoop] at h
    injection h with h1
    subst h1
    exact ⟨rfl, rfl, rfl⟩
  | cons dc rest ih =>
    intro st st2 h
    simp only [flushLoop] at h
    split at h
    · exact absurd h (by simp)
    next st3 hentry =>
      unfold flushEntry at hentry
      rw [Option.map_eq_some'] at hentry
      obtain ⟨⟨b, st4⟩, hsub, hst4⟩ := hentry
      subst hst4
      have hbool := renderSubgeometry_bool_rendered _ _ _ _ _ _ _ _ _ _
        hsub
      have hb : b = true := by
        rw [hbool.1]
        simp
      subst hb
      have hrend := hbool.2.1 rfl
      have hpres := renderSubgeometry_preserves _ _ _ _ _ _ _ _ _ _ hsub
      obtain ⟨hr2, hq2, hc2⟩ := ih _ st2 h
      refine ⟨?_, ?_, ?_⟩
      · rw [hr2, hrend]
        simp [RenderState.emit, List.length_cons]
        omega
      · rw [hq2, hpres.1]
        simp [RenderState.emit]
      · rw [hc2, hpres.2.1]
        simp [RenderState.emit]

/-- C4 (amended): the transparency deferral protocol.  (1) Every DrawCall
deferred during the opaque pass is appended exactly once to the queue, in
submission order.  (2) Each queued entry is replayed by uploading its
original world matrix and a white tint and then running the *normal*
`renderSubgeometry` path with deferral disabled — material colour selection
is not bypassed and may overwrite the white tint (see the counterexample).
(3) With deferral disabled every entry draws exactly once, so one flush
adds the queue length to `rendered` while touching neither queue nor cull
counter.  (4) The flush leaves the queue empty, every frame, even if it was
already empty. -/
theorem C4_amended_transparency_queue (tex : TexMap) :
    (∀ (model : Model) (g : ℕ) (mm : Mat4) (obj : Option GameObject)
        (sgs : List ℕ) (st st2 : RenderState),
      renderGeometryLoop tex model g mm obj sgs st = some st2 →
      st2.transparentDrawQueue = st.transparentDrawQueue ++
        (sgs.filter (fun sg => subgeomDefersB tex model g sg)).map
          (fun sg =>
            { model := model, g := g, sg := sg, matrix := mm,
              object := obj })) ∧
    (∀ (st : RenderState) (dc : DrawCall),
      flushEntry tex st dc =
        (renderSubgeometry tex dc.model dc.g dc.sg dc.matrix dc.object
          false ((st.emit (.uniformModel dc.matrix)).emit
            (.uniformCol 1 1 1 1))).map (fun r => r.2)) ∧
    (∀ (dcs : List DrawCall) (st st2 : RenderState),
      flushLoop tex dcs st = some st2 →
      st2.rendered = st.rendered + dcs.length ∧
      st2.transparentDrawQueue = st.transparentDrawQueue) ∧
    (∀ st st2 : RenderState,
      flushTransparentDrawQueue tex st = some st2 →
      st2.transparentDrawQueue = [] ∧
      st2.rendered = st.rendered + st.transparentDrawQueue.length) := by
  refine ⟨?_, ?_, ?_, ?_⟩
  · intro model g mm obj sgs st st2 h
    exact renderGeometryLoop_queue_exact tex model g mm obj sgs st st2 h
  · intro st dc
    rfl
  · intro dcs st st2 h
    exact ⟨(flushLoop_rendered_queue tex dcs st st2 h).1,
      (flushLoop_rendered_queue tex dcs st st2 h).2.1⟩
  · intro st st2 h
    unfold flushTransparentDrawQueue at h
    rw [Option.map_eq_some'] at h
    obtain ⟨st3, hloop, hst3⟩ := h
    subst hst3
    exact ⟨rfl, (flushLoop_rendered_queue tex _ st st3 hloop).1⟩

/-- C4 counterexample: flushing a queued draw whose chunk has the
`ModuleMaterialColor` flag does set the tint to white first — but then runs
the full material-colour selection, which overwrites the tint with the
material colour `51/255 ≠ 1`.  The colour-selection step is *not* bypassed
and the entry is not drawn with identity tint, contrary to the claim. -/
theorem C4_counterexample :
    flushTransparentDrawQueue texW stQueuedW = some stFlushedW ∧
    GLEvent.uniformCol (51 / 255) (51 / 255) (51 / 255) 1 ∈
      stFlushedW.events ∧
    ((51 : ℚ) / 255 ≠ 1) := by
  refine ⟨?_, by norm_num [stFlushedW], by norm_num⟩
  norm_num [flushTransparentDrawQueue, flushLoop, flushEntry,
    renderSubgeometry, materialColourState, materialIntensityState,
    finishSubgeometryDraw, RenderState.emit, stQueuedW, dcColourW,
    modelColourW, geomColourW, matColourW, stFlushedW, findTexture, texW]

theorem C4_amended_transparency_queue_witness :
    stFlushedW.transparentDrawQueue = [] ∧
    stFlushedW.rendered = stQueuedW.rendered +
      stQueuedW.transparentDrawQueue.length :=
  (C4_amended_transparency_queue texW).2.2.2 stQueuedW stFlushedW (by
    norm_num [flushTransparentDrawQueue, flushLoop, flushEntry,
      renderSubgeometry, materialColourState, materialIntensityState,
      finishSubgeometryDraw, RenderState.emit, stQueuedW, dcColourW,
      modelColourW, geomColourW, matColourW, stFlushedW, findTexture,
      texW])
